import Mathlib

/-!
Embedding of libslic3r/ExtrusionEntity.hpp

A shallow embedding of the extrusion entity model: the role tags, the leaf
entities `ExtrusionPath` and `ExtrusionPath3D`, the generic composite
`ExtrusionMultiEntity<THING>`, `ExtrusionLoop`, and the free functions that
build entities from raw geometry.

Conventions of the embedding.
* `coord_t` is `Int`; a `Point` is a pair of coordinates.
* `double` and `float` values are rationals (every finite floating-point
  number is one); rounding, infinities and NaN are not modelled.
* `std::vector<T>` is `List T`; `push_back` appends at the end.
* A raw owning pointer `ExtrusionEntity*` is the entity it points to.
* `front()`/`back()` of an empty vector and a failed `assert` are faults:
  a function that can reach one returns `Except Fault _`
  (the embedding is that of a checked build, with `assert` active).
* A function taking a vector by non-const reference returns its final value.
* `std::cout` is the list of the strings written to it so far.
* A class derived from `ExtrusionVisitor` is the table of the bodies it
  overrides; the state of the visitor object is passed explicitly.
-/

namespace Slic3r

/-! ## Geometry primitives used by the header -/

abbrev coord_t := Int

structure Point where
  x : coord_t
  y : coord_t
deriving DecidableEq, Repr

abbrev Points := List Point

structure Polyline where
  points : Points
deriving DecidableEq, Repr

abbrev Polylines := List Polyline

structure Polygon where
  points : Points
deriving DecidableEq, Repr

abbrev Polygons := List Polygon

/-- Modelled from the spec: `Polyline::is_valid` of the geometry layer
(Polyline.hpp is not among the sources). The spec calls an input with
insufficient points invalid, has a single-point input append nothing and has
the two-point input `[(0,0),(5,0)]` append a Path: a polyline is valid when it
has at least two points. -/
def Polyline.is_valid (polyline : Polyline) : Bool :=
  decide (2 ≤ polyline.points.length)

/-- Modelled from the spec: `Polygon::is_valid` of the geometry layer
(Polygon.hpp is not among the sources). The spec calls an input with
insufficient points invalid; a polygon, being implicitly closed, needs three
points to enclose anything: a polygon is valid when it has at least three
points. -/
def Polygon.is_valid (poly : Polygon) : Bool :=
  decide (3 ≤ poly.points.length)

/-- Modelled from the spec: `Polyline::reverse` of the geometry layer
(Polyline.hpp is not among the sources): reversal reverses the point order. -/
def Polyline.reverse (polyline : Polyline) : Polyline :=
  { points := polyline.points.reverse }

/-! ## Faults -/

inductive Fault
  | undefined_behaviour
  | assertion_failed
deriving DecidableEq, Repr

/-! ## Roles -/

inductive ExtrusionRole
  | erNone
  | erPerimeter
  | erExternalPerimeter
  | erOverhangPerimeter
  | erInternalInfill
  | erSolidInfill
  | erTopSolidInfill
  | erBridgeInfill
  | erGapFill
  | erSkirt
  | erSupportMaterial
  | erSupportMaterialInterface
  | erWipeTower
  | erCustom
  | erMixed
deriving DecidableEq, Repr

inductive ExtrusionLoopRole
  | elrDefault
  | elrContourInternalPerimeter
  | elrSkirt
deriving DecidableEq, Repr

/-! ## ExtrusionPath -/

structure ExtrusionPath where
  polyline : Polyline
  mm3_per_mm : ℚ
  width : ℚ
  height : ℚ
  feedrate : ℚ
  extruder_id : Nat
  cp_color_id : Nat
  m_role : ExtrusionRole
deriving DecidableEq, Repr

namespace ExtrusionPath

/-- Constructor `ExtrusionPath(ExtrusionRole role)`: the flow values are unset (negative). -/
def new_role (role : ExtrusionRole) : ExtrusionPath :=
  { polyline := { points := [] }, mm3_per_mm := -1, width := -1, height := -1,
    feedrate := 0, extruder_id := 0, cp_color_id := 0, m_role := role }

/-- Constructor `ExtrusionPath(ExtrusionRole role, double mm3_per_mm, float width, float height)`. -/
def new (role : ExtrusionRole) (mm3_per_mm width height : ℚ) : ExtrusionPath :=
  { polyline := { points := [] }, mm3_per_mm := mm3_per_mm, width := width, height := height,
    feedrate := 0, extruder_id := 0, cp_color_id := 0, m_role := role }

def reverse (p : ExtrusionPath) : ExtrusionPath :=
  { p with polyline := p.polyline.reverse }

def first_point (p : ExtrusionPath) : Except Fault Point :=
  match p.polyline.points.head? with
  | some pt => .ok pt
  | none => .error .undefined_behaviour

def last_point (p : ExtrusionPath) : Except Fault Point :=
  match p.polyline.points.getLast? with
  | some pt => .ok pt
  | none => .error .undefined_behaviour

def size (p : ExtrusionPath) : Nat := p.polyline.points.length

def empty (p : ExtrusionPath) : Bool := p.polyline.points.isEmpty

def role (p : ExtrusionPath) : ExtrusionRole := p.m_role

def is_loop (_p : ExtrusionPath) : Bool := false

def min_mm3_per_mm (p : ExtrusionPath) : ℚ := p.mm3_per_mm

def as_polyline (p : ExtrusionPath) : Polyline := p.polyline

end ExtrusionPath

abbrev ExtrusionPaths := List ExtrusionPath

/-! ## ExtrusionPath3D -/

structure ExtrusionPath3D extends ExtrusionPath where
  z_offsets : List coord_t
deriving DecidableEq, Repr

abbrev ExtrusionPaths3D := List ExtrusionPath3D

/-! ## What the header uses of the rest of the library without defining it -/

/-- Modelled from the spec: the two operations behind `total_volume()` that are
declared or used in the header and defined elsewhere: `ExtrusionPath::length()`
(ExtrusionEntity.cpp, the arc length of the path) and `unscale<double>`
(libslic3r.h, the conversion from internal fixed-point units to physical
units). Both are left unconstrained. -/
structure Externals where
  length : ExtrusionPath → ℚ
  unscale : ℚ → ℚ

/-- Total volume of one path: `mm3_per_mm * unscale<double>(length())`. -/
def ExtrusionPath.total_volume (ext : Externals) (p : ExtrusionPath) : ℚ :=
  p.mm3_per_mm * ext.unscale (ext.length p)

/-- The value of `std::numeric_limits<double>::max()`, the largest finite double. -/
def DBL_MAX : ℚ := (2 ^ 53 - 1) * 2 ^ 971

/-- The C++ `std::min(a, b)`: `(b < a) ? b : a`. -/
def std_min (a b : ℚ) : ℚ := if b < a then b else a

/-! ## Iterators of a vector of points -/

/-- An iterator of a `std::vector<Point>`: the vector object it points into
(objects are told apart by a number), the content of that object and the
position in it. -/
structure PointsIterator where
  object : Nat
  content : Points
  position : Nat
deriving DecidableEq, Repr

namespace PointsIterator

/-- The iterator `v.begin() + n` of the vector object `object` holding `content`. -/
def vec_begin_plus (object : Nat) (content : Points) (n : Nat) : PointsIterator :=
  { object := object, content := content, position := n }

/-- The iterator `v.end()` of the vector object `object` holding `content`. -/
def vec_end (object : Nat) (content : Points) : PointsIterator :=
  { object := object, content := content, position := content.length }

/-- Whether `[first, last)` is a valid range: both iterators point into the
same vector object, `first` is not behind `last`, and `last` is not past the
end. -/
def valid_range (first last : PointsIterator) : Bool :=
  decide (first.object = last.object) && decide (first.position ≤ last.position) &&
    decide (last.position ≤ last.content.length)

/-- The points of a valid range `[first, last)`. -/
def range_points (first last : PointsIterator) : Points :=
  (first.content.drop first.position).take (last.position - first.position)

end PointsIterator

/-- The call `out.insert(out.end(), first, last)` of `std::vector`: the points of
the range are appended; the behaviour is undefined unless `[first, last)` is a
valid range. -/
def vector_insert_at_end (out : Points) (first last : PointsIterator) : Except Fault Points :=
  if PointsIterator.valid_range first last then
    .ok (out ++ PointsIterator.range_points first last)
  else .error .undefined_behaviour

/-! ## ExtrusionMultiEntity<THING> -/

/-- The members of the template parameter `THING` that `ExtrusionMultiEntity<THING>`
uses. Both instantiations take them from `ExtrusionPath`: `ExtrusionPath3D`
inherits `reverse`, `role`, `min_mm3_per_mm`, `as_polyline`, `length` and
`total_volume`, which act on the `ExtrusionPath` base sub-object. -/
class ExtrusionThing (THING : Type) where
  base : THING → ExtrusionPath
  reverse : THING → THING

instance : ExtrusionThing ExtrusionPath where
  base := fun p => p
  reverse := ExtrusionPath.reverse

instance : ExtrusionThing ExtrusionPath3D where
  base := fun p => p.toExtrusionPath
  reverse := fun p => { p with toExtrusionPath := p.toExtrusionPath.reverse }

structure ExtrusionMultiEntity (THING : Type) where
  paths : List THING
deriving DecidableEq, Repr

namespace ExtrusionMultiEntity

variable {THING : Type} [ExtrusionThing THING]

/-- The point sequence `paths[i].as_polyline().points` of a sub-path. -/
def pts (t : THING) : Points := (ExtrusionThing.base t).polyline.points

def is_loop (_m : ExtrusionMultiEntity THING) : Bool := false

def role (m : ExtrusionMultiEntity THING) : ExtrusionRole :=
  match m.paths with
  | [] => .erNone
  | front :: _ => (ExtrusionThing.base front).role

/-- Reversal: every sub-path is reversed in place, then `std::reverse` reverses
their order. -/
def reverse (m : ExtrusionMultiEntity THING) : ExtrusionMultiEntity THING :=
  { paths := (m.paths.map ExtrusionThing.reverse).reverse }

def min_mm3_per_mm (m : ExtrusionMultiEntity THING) : ℚ :=
  m.paths.foldl (fun min_mm3_per_mm entity =>
    std_min min_mm3_per_mm (ExtrusionThing.base entity).min_mm3_per_mm) DBL_MAX

def total_volume (ext : Externals) (m : ExtrusionMultiEntity THING) : ℚ :=
  m.paths.foldl (fun volume path =>
    volume + (ExtrusionThing.base path).total_volume ext) 0

/-- The first loop of `as_polyline()`: the two assertions on sub-path `i_path`
and the running `len`. `prev` is `paths[i_path - 1]`, absent when `i_path == 0`. -/
def as_polyline_len : Option THING → List THING → Nat → Except Fault Nat
  | _, [], len => .ok len
  | prev, path :: rest, len =>
    if (pts path).isEmpty then .error .assertion_failed
    else
      match prev with
      | none => as_polyline_len (some path) rest (len + (pts path).length)
      | some before =>
        if (pts before).getLast? = (pts path).head? then
          as_polyline_len (some path) rest (len + (pts path).length)
        else .error .assertion_failed

/-- The second loop of `as_polyline()`: for every sub-path
`out.points.insert(out.points.end(), paths[i_path].as_polyline().points.begin() + 1,
paths[i_path].as_polyline().points.end())`. `as_polyline()` returns its
`Polyline` by value (lines 117 and 181), so the two calls in the argument list
make two temporaries, numbered `fresh` and `fresh + 1`: the first iterator
points into the one and the second into the other. -/
def as_polyline_insert : Nat → Points → List THING → Except Fault Points
  | _, out, [] => .ok out
  | fresh, out, path :: rest =>
    let first := PointsIterator.vec_begin_plus fresh (pts path) 1
    let last := PointsIterator.vec_end (fresh + 1) (pts path)
    match vector_insert_at_end out first last with
    | .error f => .error f
    | .ok inserted => as_polyline_insert (fresh + 2) inserted rest

/-- Flattening to one polyline: the assertion loop, the first point, then the
insertion loop. `len` cannot underflow at `len -= paths.size() - 1`: every
sub-path passed the non-emptiness assertion and added at least one. -/
def as_polyline (m : ExtrusionMultiEntity THING) : Except Fault Polyline :=
  match m.paths with
  | [] => .ok { points := [] }
  | front :: _ =>
    match as_polyline_len none m.paths 0 with
    | .error f => .error f
    | .ok len =>
      if len - (m.paths.length - 1) = 0 then .error .assertion_failed
      else
        match (pts front).head? with
        | none => .error .undefined_behaviour
        | some p0 =>
          match as_polyline_insert 0 [p0] m.paths with
          | .error f => .error f
          | .ok points => .ok { points := points }

end ExtrusionMultiEntity

structure ExtrusionMultiPath extends ExtrusionMultiEntity ExtrusionPath
deriving DecidableEq, Repr

structure ExtrusionMultiPath3D extends ExtrusionMultiEntity ExtrusionPath3D
deriving DecidableEq, Repr

/-- Reversal of a composite of plain paths: `ExtrusionMultiPath` inherits
`ExtrusionMultiEntity<ExtrusionPath>::reverse`. -/
def ExtrusionMultiPath.reverse (m : ExtrusionMultiPath) : ExtrusionMultiPath :=
  { toExtrusionMultiEntity := m.toExtrusionMultiEntity.reverse }

/-! ## ExtrusionLoop -/

structure ExtrusionLoop where
  paths : ExtrusionPaths
  m_loop_role : ExtrusionLoopRole
deriving DecidableEq, Repr

namespace ExtrusionLoop

/-- Constructor `ExtrusionLoop(const ExtrusionPath &&path, ExtrusionLoopRole role)`:
the path is pushed onto the empty path list. -/
def of_path (path : ExtrusionPath) (role : ExtrusionLoopRole) : ExtrusionLoop :=
  { paths := [] ++ [path], m_loop_role := role }

def is_loop (_l : ExtrusionLoop) : Bool := true

def role (l : ExtrusionLoop) : ExtrusionRole :=
  match l.paths with
  | [] => .erNone
  | front :: _ => front.role

def first_point (l : ExtrusionLoop) : Except Fault Point :=
  match l.paths.head? with
  | none => .error .undefined_behaviour
  | some front => front.first_point

/-- Member `last_point()`: `assert(first_point() == paths.back().polyline.points.back());
return first_point();`. -/
def last_point (l : ExtrusionLoop) : Except Fault Point :=
  match l.first_point with
  | .error f => .error f
  | .ok fp =>
    match l.paths.getLast? with
    | none => .error .undefined_behaviour
    | some back =>
      match back.last_point with
      | .error f => .error f
      | .ok bp => if fp = bp then l.first_point else .error .assertion_failed

end ExtrusionLoop

/-! ## The polymorphic entity -/

/-- An `ExtrusionEntity*`: one of the five concrete kinds of this header. -/
inductive ExtrusionEntity
  | path (p : ExtrusionPath)
  | path3D (p : ExtrusionPath3D)
  | multipath (m : ExtrusionMultiPath)
  | multipath3D (m : ExtrusionMultiPath3D)
  | loop (l : ExtrusionLoop)
deriving DecidableEq, Repr

abbrev ExtrusionEntitiesPtr := List ExtrusionEntity

namespace ExtrusionEntity

def is_loop : ExtrusionEntity → Bool
  | .path p => p.is_loop
  | .path3D p => p.toExtrusionPath.is_loop
  | .multipath m => m.toExtrusionMultiEntity.is_loop
  | .multipath3D m => m.toExtrusionMultiEntity.is_loop
  | .loop l => l.is_loop

def role : ExtrusionEntity → ExtrusionRole
  | .path p => p.role
  | .path3D p => p.toExtrusionPath.role
  | .multipath m => m.toExtrusionMultiEntity.role
  | .multipath3D m => m.toExtrusionMultiEntity.role
  | .loop l => l.role

end ExtrusionEntity

/-! ## Building entities from raw geometry -/

/-- The loop of `extrusion_paths_append(ExtrusionPaths&, Polylines&, ...)`. -/
def extrusion_paths_append_loop (role : ExtrusionRole) (mm3_per_mm width height : ℚ) :
    ExtrusionPaths → Polylines → ExtrusionPaths
  | dst, [] => dst
  | dst, polyline :: rest =>
    if polyline.is_valid then
      let pushed := ExtrusionPath.new role mm3_per_mm width height
      extrusion_paths_append_loop role mm3_per_mm width height
        (dst ++ [{ pushed with polyline := polyline }]) rest
    else
      extrusion_paths_append_loop role mm3_per_mm width height dst rest

/-- The overload `extrusion_paths_append(ExtrusionPaths &dst, Polylines &polylines, ...)`;
returns the final `dst` and `polylines`. -/
def extrusion_paths_append (dst : ExtrusionPaths) (polylines : Polylines)
    (role : ExtrusionRole) (mm3_per_mm width height : ℚ) : ExtrusionPaths × Polylines :=
  (extrusion_paths_append_loop role mm3_per_mm width height dst polylines, polylines)

/-- The loop of `extrusion_entities_append_paths(ExtrusionEntitiesPtr&, Polylines&, ...)`. -/
def extrusion_entities_append_paths_loop (role : ExtrusionRole) (mm3_per_mm width height : ℚ) :
    ExtrusionEntitiesPtr → Polylines → Except Fault ExtrusionEntitiesPtr
  | dst, [] => .ok dst
  | dst, polyline :: rest =>
    if polyline.is_valid then
      match polyline.points.getLast?, polyline.points.head? with
      | some back, some front =>
        if back = front then
          let path := ExtrusionPath.new role mm3_per_mm width height
          let path := { path with polyline := { points := polyline.points } }
          extrusion_entities_append_paths_loop role mm3_per_mm width height
            (dst ++ [.loop (ExtrusionLoop.of_path path .elrDefault)]) rest
        else
          let extrusion_path := ExtrusionPath.new role mm3_per_mm width height
          extrusion_entities_append_paths_loop role mm3_per_mm width height
            (dst ++ [.path { extrusion_path with polyline := polyline }]) rest
      | _, _ => .error .undefined_behaviour
    else
      extrusion_entities_append_paths_loop role mm3_per_mm width height dst rest

/-- The overload `extrusion_entities_append_paths(ExtrusionEntitiesPtr &dst,
Polylines &polylines, ...)`; returns the final `dst` and `polylines`. -/
def extrusion_entities_append_paths (dst : ExtrusionEntitiesPtr) (polylines : Polylines)
    (role : ExtrusionRole) (mm3_per_mm width height : ℚ) :
    Except Fault (ExtrusionEntitiesPtr × Polylines) :=
  match extrusion_entities_append_paths_loop role mm3_per_mm width height dst polylines with
  | .error f => .error f
  | .ok out => .ok (out, polylines)

/-- The loop of `extrusion_entities_append_loops(ExtrusionEntitiesPtr&, Polygons&, ...)`. -/
def extrusion_entities_append_loops_loop (role : ExtrusionRole) (mm3_per_mm width height : ℚ) :
    ExtrusionEntitiesPtr → Polygons → Except Fault ExtrusionEntitiesPtr
  | dst, [] => .ok dst
  | dst, poly :: rest =>
    if poly.is_valid then
      let path := ExtrusionPath.new role mm3_per_mm width height
      let path := { path with polyline := { points := poly.points } }
      match path.polyline.points.head? with
      | none => .error .undefined_behaviour
      | some front =>
        let path := { path with polyline := { points := path.polyline.points ++ [front] } }
        extrusion_entities_append_loops_loop role mm3_per_mm width height
          (dst ++ [.loop (ExtrusionLoop.of_path path .elrDefault)]) rest
    else
      extrusion_entities_append_loops_loop role mm3_per_mm width height dst rest

/-- The overload `extrusion_entities_append_loops(ExtrusionEntitiesPtr &dst,
Polygons &loops, ...)`; returns the final `dst` and `loops`. -/
def extrusion_entities_append_loops (dst : ExtrusionEntitiesPtr) (loops : Polygons)
    (role : ExtrusionRole) (mm3_per_mm width height : ℚ) :
    Except Fault (ExtrusionEntitiesPtr × Polygons) :=
  match extrusion_entities_append_loops_loop role mm3_per_mm width height dst loops with
  | .error f => .error f
  | .ok out => .ok (out, loops)

/-! ## Closed forms of the loops -/

/-- The entity that the body of the loop of `extrusion_entities_append_paths`
pushes for one valid polyline. -/
def entity_of_polyline (role : ExtrusionRole) (mm3_per_mm width height : ℚ)
    (polyline : Polyline) : ExtrusionEntity :=
  if polyline.points.getLast? = polyline.points.head? then
    .loop { paths := [{ ExtrusionPath.new role mm3_per_mm width height with
                        polyline := { points := polyline.points } }],
            m_loop_role := .elrDefault }
  else
    .path { ExtrusionPath.new role mm3_per_mm width height with polyline := polyline }

/-- The entity that the body of the loop of `extrusion_entities_append_loops`
pushes for one valid polygon: the boundary followed by its first point. -/
def entity_of_polygon (role : ExtrusionRole) (mm3_per_mm width height : ℚ)
    (poly : Polygon) : ExtrusionEntity :=
  .loop { paths := [{ ExtrusionPath.new role mm3_per_mm width height with
                      polyline := { points := poly.points ++ poly.points.take 1 } }],
          m_loop_role := .elrDefault }

/-! ## Notions the statements about composites use -/

/-- Endpoint adjacency of a sequence of point sequences, in the words of the
spec: the last point of sequence i is the first point of sequence i+1. -/
def endpoints_adjacent : List Points → Prop
  | [] => True
  | [_] => True
  | a :: b :: rest => a.getLast? = b.head? ∧ endpoints_adjacent (b :: rest)

instance endpoints_adjacent.decidable : (seqs : List Points) → Decidable (endpoints_adjacent seqs)
  | [] => isTrue trivial
  | [_] => isTrue trivial
  | a :: b :: rest =>
    @instDecidableAnd (a.getLast? = b.head?) (endpoints_adjacent (b :: rest))
      inferInstance (endpoints_adjacent.decidable (b :: rest))

/-- The plain concatenation of point sequences with the duplicated shared
endpoint removed once at every junction, in the words of the spec: of the two
copies of the point shared by sequence i and sequence i+1, the one ending
sequence i is left out. -/
def concat_shared_endpoints : List Points → Points
  | [] => []
  | [a] => a
  | a :: b :: rest => a.dropLast ++ concat_shared_endpoints (b :: rest)

/-- A composite of two plain paths that share the endpoint (10,0). -/
def two_segment_multipath : ExtrusionMultiPath :=
  { paths :=
      [{ ExtrusionPath.new .erPerimeter 2 (2 / 5) (1 / 5) with
         polyline := { points := [⟨0, 0⟩, ⟨10, 0⟩] } },
       { ExtrusionPath.new .erOverhangPerimeter 1 (2 / 5) (1 / 5) with
         polyline := { points := [⟨10, 0⟩, ⟨10, 10⟩, ⟨0, 10⟩] } }] }

/-! ## Further members of the entity classes -/

namespace ExtrusionPath3D

/-- Constructor `ExtrusionPath3D(ExtrusionRole role)`: the base is built from
the role, `z_offsets` is default-initialised. -/
def new_role (role : ExtrusionRole) : ExtrusionPath3D :=
  { toExtrusionPath := ExtrusionPath.new_role role, z_offsets := [] }

/-- Constructor `ExtrusionPath3D(ExtrusionRole role, double mm3_per_mm, float width,
float height)`. -/
def new (role : ExtrusionRole) (mm3_per_mm width height : ℚ) : ExtrusionPath3D :=
  { toExtrusionPath := ExtrusionPath.new role mm3_per_mm width height, z_offsets := [] }

/-- Constructor `ExtrusionPath3D(const ExtrusionPath &rhs)`: only the base is
initialised from `rhs`; `z_offsets` is default-initialised. -/
def of_path (rhs : ExtrusionPath) : ExtrusionPath3D :=
  { toExtrusionPath := rhs, z_offsets := [] }

/-- Constructor `ExtrusionPath3D(const ExtrusionPath3D &rhs)`: the base and
`z_offsets` are copied. -/
def copy (rhs : ExtrusionPath3D) : ExtrusionPath3D :=
  { toExtrusionPath := rhs.toExtrusionPath, z_offsets := rhs.z_offsets }

/-- Member `push_back(Point p, coord_t z_offset)`. -/
def push_back (path : ExtrusionPath3D) (p : Point) (z_offset : coord_t) : ExtrusionPath3D :=
  { path with
    polyline := { points := path.polyline.points ++ [p] },
    z_offsets := path.z_offsets ++ [z_offset] }

/-- Member `reverse()`, inherited from `ExtrusionPath`: `this->polyline.reverse()`. -/
def reverse (path : ExtrusionPath3D) : ExtrusionPath3D :=
  { path with toExtrusionPath := path.toExtrusionPath.reverse }

/-- Member `simplify(double tolerance)`, overridden with an empty body. -/
def simplify (path : ExtrusionPath3D) (_tolerance : ℚ) : ExtrusionPath3D := path

end ExtrusionPath3D

/-- Modelled from the spec: the two-argument footprint queries of one path,
`ExtrusionPath::polygons_covered_by_width(Polygons &out, float scaled_epsilon)`
and `polygons_covered_by_spacing`, declared in the header and defined in
ExtrusionEntity.cpp. Each maps the accumulator `out` to its value after the
call; both are left unconstrained. -/
structure FootprintExternals where
  polygons_covered_by_width : ExtrusionPath → Polygons → ℚ → Polygons
  polygons_covered_by_spacing : ExtrusionPath → Polygons → ℚ → Polygons

namespace ExtrusionMultiEntity

variable {THING : Type} [ExtrusionThing THING]

/-- Member `first_point()`: `this->paths.back().as_polyline().points.back()`. -/
def first_point (m : ExtrusionMultiEntity THING) : Except Fault Point :=
  match m.paths.getLast? with
  | none => .error .undefined_behaviour
  | some back =>
    match (pts back).getLast? with
    | none => .error .undefined_behaviour
    | some pt => .ok pt

/-- Member `last_point()`: `this->paths.back().as_polyline().points.back()`. -/
def last_point (m : ExtrusionMultiEntity THING) : Except Fault Point :=
  match m.paths.getLast? with
  | none => .error .undefined_behaviour
  | some back =>
    match (pts back).getLast? with
    | none => .error .undefined_behaviour
    | some pt => .ok pt

def length (ext : Externals) (m : ExtrusionMultiEntity THING) : ℚ :=
  m.paths.foldl (fun len entity => len + ext.length (ExtrusionThing.base entity)) 0

/-- The two-argument `polygons_covered_by_width(Polygons &out, float scaled_epsilon)`;
returns the final `out`. -/
def polygons_covered_by_width (fp : FootprintExternals) (m : ExtrusionMultiEntity THING)
    (out : Polygons) (scaled_epsilon : ℚ) : Polygons :=
  m.paths.foldl (fun out entity =>
    fp.polygons_covered_by_width (ExtrusionThing.base entity) out scaled_epsilon) out

/-- The two-argument `polygons_covered_by_spacing(Polygons &out, float scaled_epsilon)`;
returns the final `out`. -/
def polygons_covered_by_spacing (fp : FootprintExternals) (m : ExtrusionMultiEntity THING)
    (out : Polygons) (scaled_epsilon : ℚ) : Polygons :=
  m.paths.foldl (fun out entity =>
    fp.polygons_covered_by_spacing (ExtrusionThing.base entity) out scaled_epsilon) out

/-- The one-argument `polygons_covered_by_width(float scaled_epsilon)`: the
two-argument form run on an empty `out`. -/
def polygons_covered_by_width_new (fp : FootprintExternals) (m : ExtrusionMultiEntity THING)
    (scaled_epsilon : ℚ) : Polygons :=
  m.polygons_covered_by_width fp [] scaled_epsilon

/-- The one-argument `polygons_covered_by_spacing(float scaled_epsilon)`. -/
def polygons_covered_by_spacing_new (fp : FootprintExternals) (m : ExtrusionMultiEntity THING)
    (scaled_epsilon : ℚ) : Polygons :=
  m.polygons_covered_by_spacing fp [] scaled_epsilon

/-- Member `collect_polylines(Polylines &dst)`: `Polyline pl = this->as_polyline();
if (!pl.empty()) dst.emplace_back(std::move(pl));`; returns the final `dst`. -/
def collect_polylines (m : ExtrusionMultiEntity THING) (dst : Polylines) :
    Except Fault Polylines :=
  match m.as_polyline with
  | .error f => .error f
  | .ok pl => if ! pl.points.isEmpty then .ok (dst ++ [pl]) else .ok dst

end ExtrusionMultiEntity

namespace ExtrusionMultiPath3D

def can_reverse (_m : ExtrusionMultiPath3D) : Bool := false

/-- The text that `ExtrusionMultiPath3D::reverse()` writes. -/
def reverse_message : String := "I SAID NO REVERSE\uFFFD\uFFFD\uFFFDFFFS\n"

/-- Member `reverse()`, overridden: `std::cout << "I SAID NO REVERSE...FFFS\n";` and
nothing else. `cout` is the text written to standard output so far; the result
is the composite and the standard output after the call. -/
def reverse (m : ExtrusionMultiPath3D) (cout : List String) :
    Except Fault (ExtrusionMultiPath3D × List String) :=
  .ok (m, cout ++ [reverse_message])

end ExtrusionMultiPath3D

namespace ExtrusionLoop

def can_reverse (_l : ExtrusionLoop) : Bool := false

def total_volume (ext : Externals) (l : ExtrusionLoop) : ℚ :=
  l.paths.foldl (fun volume path => volume + path.total_volume ext) 0

end ExtrusionLoop

/-- Member `can_reverse()`: true in `ExtrusionEntity`, overridden to false by
`ExtrusionMultiPath3D` and by `ExtrusionLoop`. -/
def ExtrusionEntity.can_reverse : ExtrusionEntity → Bool
  | .path _ => true
  | .path3D _ => true
  | .multipath _ => true
  | .multipath3D m => m.can_reverse
  | .loop l => l.can_reverse

/-- A composite of one non-planar path with two points and two elevations. -/
def one_segment_multipath3D : ExtrusionMultiPath3D :=
  { paths :=
      [{ toExtrusionPath :=
           { ExtrusionPath.new .erPerimeter 1 (2 / 5) (1 / 5) with
             polyline := { points := [⟨0, 0⟩, ⟨10, 0⟩] } },
         z_offsets := [0, 5] }] }

/-! ## Direction normalization of a loop -/

/-- Modelled from the spec: `ExtrusionLoop::reverse()`, declared in the header and
defined in ExtrusionEntity.cpp: the entire sub-path sequence is reversed in
place, each sub-path individually reversed, order reversed. -/
def ExtrusionLoop.reverse (l : ExtrusionLoop) : ExtrusionLoop :=
  { l with paths := (l.paths.map ExtrusionPath.reverse).reverse }

/-- The cross product of two points taken as vectors from the origin. -/
def Point.cross (a b : Point) : Int := a.x * b.y - a.y * b.x

/-- Modelled from the spec: twice the signed area that the segments of one
point sequence contribute to the area of a ring (the shoelace sum over
consecutive points). -/
def segments_area2 : Points → Int
  | [] => 0
  | [_] => 0
  | a :: b :: rest => a.cross b + segments_area2 (b :: rest)

/-- Modelled from the spec: twice the signed area of the ring of a loop (the
area computation lives in ExtrusionEntity.cpp and the geometry layer). The ring
is traced by the segments of the sub-paths one after the other, and its signed
area is half the sum of the cross products over these segments, positive for a
counter-clockwise ring. -/
def ExtrusionLoop.signed_area2 (l : ExtrusionLoop) : Int :=
  (l.paths.map (fun path => segments_area2 path.polyline.points)).sum

/-- Modelled from the spec: `ExtrusionLoop::make_clockwise()`, declared in the
header and defined in ExtrusionEntity.cpp: compute the signed area of the ring;
if its sign disagrees with the requested orientation, reverse the entire
sub-path sequence. The sign that disagrees with clockwise is the positive one;
a ring of area zero has no sign to disagree. Returns the loop after the call. -/
def ExtrusionLoop.make_clockwise (l : ExtrusionLoop) : ExtrusionLoop :=
  if 0 < l.signed_area2 then l.reverse else l

/-- Modelled from the spec: `ExtrusionLoop::make_counter_clockwise()`, declared in
the header and defined in ExtrusionEntity.cpp: as `make_clockwise()`, the sign
that disagrees being the negative one. Returns the loop after the call. -/
def ExtrusionLoop.make_counter_clockwise (l : ExtrusionLoop) : ExtrusionLoop :=
  if l.signed_area2 < 0 then l.reverse else l

/-- A counter-clockwise square ring made of two paths. -/
def square_loop : ExtrusionLoop :=
  { paths :=
      [{ ExtrusionPath.new .erPerimeter 1 (2 / 5) (1 / 5) with
         polyline := { points := [⟨0, 0⟩, ⟨10, 0⟩, ⟨10, 10⟩] } },
       { ExtrusionPath.new .erPerimeter 1 (2 / 5) (1 / 5) with
         polyline := { points := [⟨10, 10⟩, ⟨0, 10⟩, ⟨0, 0⟩] } }],
    m_loop_role := .elrDefault }

/-! ## ExtrusionVisitor -/

/-- The five concrete kinds of entity of this header. -/
inductive EntityKind
  | path
  | path3D
  | multipath
  | multipath3D
  | loop
deriving DecidableEq, Repr

def ExtrusionEntity.kind : ExtrusionEntity → EntityKind
  | .path _ => .path
  | .path3D _ => .path3D
  | .multipath _ => .multipath
  | .multipath3D _ => .multipath3D
  | .loop _ => .loop

/-- The virtual overloads of `ExtrusionVisitor::use` for the five kinds:
`mut k` takes a mutable reference, `const k` a const reference. -/
inductive Overload
  | mut (k : EntityKind)
  | const (k : EntityKind)
deriving DecidableEq, Repr

/-- A class derived from `ExtrusionVisitor`, with state `σ`. For every virtual
overload of `use` it holds the overriding body, or `none` when the class
inherits the body of `ExtrusionVisitor`. A body taking a mutable reference may
change the entity and the visitor, a body taking a const reference the visitor
only. The two overloads for `ExtrusionEntityCollection` are left out: the class
is only forward-declared in this header, and no `visit` of this header calls
them. -/
structure ExtrusionVisitor (σ : Type) where
  override_path : Option (ExtrusionPath → σ → Except Fault (ExtrusionPath × σ))
  override_path3D : Option (ExtrusionPath3D → σ → Except Fault (ExtrusionPath3D × σ))
  override_multipath : Option (ExtrusionMultiPath → σ → Except Fault (ExtrusionMultiPath × σ))
  override_multipath3D : Option (ExtrusionMultiPath3D → σ → Except Fault (ExtrusionMultiPath3D × σ))
  override_loop : Option (ExtrusionLoop → σ → Except Fault (ExtrusionLoop × σ))
  override_const_path : Option (ExtrusionPath → σ → Except Fault σ)
  override_const_path3D : Option (ExtrusionPath3D → σ → Except Fault σ)
  override_const_multipath : Option (ExtrusionMultiPath → σ → Except Fault σ)
  override_const_multipath3D : Option (ExtrusionMultiPath3D → σ → Except Fault σ)
  override_const_loop : Option (ExtrusionLoop → σ → Except Fault σ)

namespace ExtrusionVisitor

variable {σ : Type}

/-- Whether the class overrides the given overload. -/
def overrides (v : ExtrusionVisitor σ) : Overload → Bool
  | .mut .path => v.override_path.isSome
  | .mut .path3D => v.override_path3D.isSome
  | .mut .multipath => v.override_multipath.isSome
  | .mut .multipath3D => v.override_multipath3D.isSome
  | .mut .loop => v.override_loop.isSome
  | .const .path => v.override_const_path.isSome
  | .const .path3D => v.override_const_path3D.isSome
  | .const .multipath => v.override_const_multipath.isSome
  | .const .multipath3D => v.override_const_multipath3D.isSome
  | .const .loop => v.override_const_loop.isSome

/-- The overload `use(const ExtrusionPath &)`: the overriding body, or the default
`assert(false)`. -/
def use_const_path (v : ExtrusionVisitor σ) (entity : ExtrusionPath) (s : σ) : Except Fault σ :=
  match v.override_const_path with
  | some body => body entity s
  | none => .error .assertion_failed

/-- The overload `use(ExtrusionPath &)`: the overriding body, or the default, which
calls `use` on a const reference to the same entity. -/
def use_path (v : ExtrusionVisitor σ) (entity : ExtrusionPath) (s : σ) :
    Except Fault (ExtrusionPath × σ) :=
  match v.override_path with
  | some body => body entity s
  | none =>
    match v.use_const_path entity s with
    | .error f => .error f
    | .ok s2 => .ok (entity, s2)

/-- The overload `use(const ExtrusionPath3D &)`: the overriding body, or the default
`assert(false)`. -/
def use_const_path3D (v : ExtrusionVisitor σ) (entity : ExtrusionPath3D) (s : σ) : Except Fault σ :=
  match v.override_const_path3D with
  | some body => body entity s
  | none => .error .assertion_failed

/-- The overload `use(ExtrusionPath3D &)`: the overriding body, or the default, which
calls `use` on a const reference to the same entity. -/
def use_path3D (v : ExtrusionVisitor σ) (entity : ExtrusionPath3D) (s : σ) :
    Except Fault (ExtrusionPath3D × σ) :=
  match v.override_path3D with
  | some body => body entity s
  | none =>
    match v.use_const_path3D entity s with
    | .error f => .error f
    | .ok s2 => .ok (entity, s2)

/-- The overload `use(const ExtrusionMultiPath &)`: the overriding body, or the default
`assert(false)`. -/
def use_const_multipath (v : ExtrusionVisitor σ) (entity : ExtrusionMultiPath) (s : σ) : Except Fault σ :=
  match v.override_const_multipath with
  | some body => body entity s
  | none => .error .assertion_failed

/-- The overload `use(ExtrusionMultiPath &)`: the overriding body, or the default, which
calls `use` on a const reference to the same entity. -/
def use_multipath (v : ExtrusionVisitor σ) (entity : ExtrusionMultiPath) (s : σ) :
    Except Fault (ExtrusionMultiPath × σ) :=
  match v.override_multipath with
  | some body => body entity s
  | none =>
    match v.use_const_multipath entity s with
    | .error f => .error f
    | .ok s2 => .ok (entity, s2)

/-- The overload `use(const ExtrusionMultiPath3D &)`: the overriding body, or the default
`assert(false)`. -/
def use_const_multipath3D (v : ExtrusionVisitor σ) (entity : ExtrusionMultiPath3D) (s : σ) : Except Fault σ :=
  match v.override_const_multipath3D with
  | some body => body entity s
  | none => .error .assertion_failed

/-- The overload `use(ExtrusionMultiPath3D &)`: the overriding body, or the default, which
calls `use` on a const reference to the same entity. -/
def use_multipath3D (v : ExtrusionVisitor σ) (entity : ExtrusionMultiPath3D) (s : σ) :
    Except Fault (ExtrusionMultiPath3D × σ) :=
  match v.override_multipath3D with
  | some body => body entity s
  | none =>
    match v.use_const_multipath3D entity s with
    | .error f => .error f
    | .ok s2 => .ok (entity, s2)

/-- The overload `use(const ExtrusionLoop &)`: the overriding body, or the default
`assert(false)`. -/
def use_const_loop (v : ExtrusionVisitor σ) (entity : ExtrusionLoop) (s : σ) : Except Fault σ :=
  match v.override_const_loop with
  | some body => body entity s
  | none => .error .assertion_failed

/-- The overload `use(ExtrusionLoop &)`: the overriding body, or the default, which
calls `use` on a const reference to the same entity. -/
def use_loop (v : ExtrusionVisitor σ) (entity : ExtrusionLoop) (s : σ) :
    Except Fault (ExtrusionLoop × σ) :=
  match v.override_loop with
  | some body => body entity s
  | none =>
    match v.use_const_loop entity s with
    | .error f => .error f
    | .ok s2 => .ok (entity, s2)

end ExtrusionVisitor

/-- The non-const `visit(ExtrusionVisitor &visitor)` of the five kinds, each
`visitor.use(*this)` with `*this` a mutable reference; returns the entity and
the visitor state after the call. -/
def ExtrusionEntity.visit {σ : Type} (e : ExtrusionEntity) (visitor : ExtrusionVisitor σ)
    (s : σ) : Except Fault (ExtrusionEntity × σ) :=
  match e with
  | .path entity =>
    match visitor.use_path entity s with
    | .error f => .error f
    | .ok (entity2, s2) => .ok (.path entity2, s2)
  | .path3D entity =>
    match visitor.use_path3D entity s with
    | .error f => .error f
    | .ok (entity2, s2) => .ok (.path3D entity2, s2)
  | .multipath entity =>
    match visitor.use_multipath entity s with
    | .error f => .error f
    | .ok (entity2, s2) => .ok (.multipath entity2, s2)
  | .multipath3D entity =>
    match visitor.use_multipath3D entity s with
    | .error f => .error f
    | .ok (entity2, s2) => .ok (.multipath3D entity2, s2)
  | .loop entity =>
    match visitor.use_loop entity s with
    | .error f => .error f
    | .ok (entity2, s2) => .ok (.loop entity2, s2)

/-- The const `visit(ExtrusionVisitor &visitor) const` of the five kinds, each
`visitor.use(*this)` with `*this` a const reference; returns the visitor state
after the call. -/
def ExtrusionEntity.visit_const {σ : Type} (e : ExtrusionEntity)
    (visitor : ExtrusionVisitor σ) (s : σ) : Except Fault σ :=
  match e with
  | .path entity => visitor.use_const_path entity s
  | .path3D entity => visitor.use_const_path3D entity s
  | .multipath entity => visitor.use_const_multipath entity s
  | .multipath3D entity => visitor.use_const_multipath3D entity s
  | .loop entity => visitor.use_const_loop entity s

/-- The visitor that observes dispatch. Its state is the log of the overload
bodies that ran; `overridden o` tells whether the class overrides the overload
`o`, and an overriding body appends its own name to the log and does nothing
else. -/
def recording_visitor (overridden : Overload → Bool) : ExtrusionVisitor (List Overload) :=
  {
    override_path :=
      if overridden (.mut .path) then some (fun entity log => .ok (entity, log ++ [.mut .path]))
      else none,
    override_path3D :=
      if overridden (.mut .path3D) then some (fun entity log => .ok (entity, log ++ [.mut .path3D]))
      else none,
    override_multipath :=
      if overridden (.mut .multipath) then some (fun entity log => .ok (entity, log ++ [.mut .multipath]))
      else none,
    override_multipath3D :=
      if overridden (.mut .multipath3D) then some (fun entity log => .ok (entity, log ++ [.mut .multipath3D]))
      else none,
    override_loop :=
      if overridden (.mut .loop) then some (fun entity log => .ok (entity, log ++ [.mut .loop]))
      else none,
    override_const_path :=
      if overridden (.const .path) then some (fun _ log => .ok (log ++ [.const .path]))
      else none,
    override_const_path3D :=
      if overridden (.const .path3D) then some (fun _ log => .ok (log ++ [.const .path3D]))
      else none,
    override_const_multipath :=
      if overridden (.const .multipath) then some (fun _ log => .ok (log ++ [.const .multipath]))
      else none,
    override_const_multipath3D :=
      if overridden (.const .multipath3D) then some (fun _ log => .ok (log ++ [.const .multipath3D]))
      else none,
    override_const_loop :=
      if overridden (.const .loop) then some (fun _ log => .ok (log ++ [.const .loop]))
      else none }

/-- The choice of overrides of a visitor that overrides all the const-reference
overloads and none of the others. -/
def only_const_overloads : Overload → Bool
  | .mut _ => false
  | .const _ => true

/-- The choice of overrides of a visitor that overrides `use(const ExtrusionPath3D &)`
and nothing else. -/
def only_const_path3D : Overload → Bool
  | .const .path3D => true
  | _ => false

/-! ## Role predicates -/

def is_perimeter (role : ExtrusionRole) : Bool :=
  role == .erPerimeter
    || role == .erExternalPerimeter
    || role == .erOverhangPerimeter

def is_infill (role : ExtrusionRole) : Bool :=
  role == .erBridgeInfill
    || role == .erInternalInfill
    || role == .erSolidInfill
    || role == .erTopSolidInfill

def is_solid_infill (role : ExtrusionRole) : Bool :=
  role == .erBridgeInfill
    || role == .erSolidInfill
    || role == .erTopSolidInfill

def is_bridge (role : ExtrusionRole) : Bool :=
  role == .erBridgeInfill
    || role == .erOverhangPerimeter

/-! ## The overloads that consume their batch -/

/-- The loop of `extrusion_paths_append(ExtrusionPaths&, Polylines&&, ...)`. The
pushed path takes the polyline by `std::move`; the polyline moved from is not
read again. -/
def extrusion_paths_append_move_loop (role : ExtrusionRole) (mm3_per_mm width height : ℚ) :
    ExtrusionPaths → Polylines → ExtrusionPaths
  | dst, [] => dst
  | dst, polyline :: rest =>
    if polyline.is_valid then
      let pushed := ExtrusionPath.new role mm3_per_mm width height
      let moved := polyline
      extrusion_paths_append_move_loop role mm3_per_mm width height
        (dst ++ [{ pushed with polyline := moved }]) rest
    else
      extrusion_paths_append_move_loop role mm3_per_mm width height dst rest

/-- The overload `extrusion_paths_append(ExtrusionPaths &dst, Polylines &&polylines, ...)`:
the loop, then `polylines.clear()`; returns the final `dst` and `polylines`. -/
def extrusion_paths_append_move (dst : ExtrusionPaths) (polylines : Polylines)
    (role : ExtrusionRole) (mm3_per_mm width height : ℚ) : ExtrusionPaths × Polylines :=
  (extrusion_paths_append_move_loop role mm3_per_mm width height dst polylines, [])

/-- The loop of `extrusion_entities_append_paths(ExtrusionEntitiesPtr&, Polylines&&, ...)`.
A closed polyline has its points copied into the path of the Loop; an open one
is moved into the new Path and not read again. -/
def extrusion_entities_append_paths_move_loop (role : ExtrusionRole)
    (mm3_per_mm width height : ℚ) :
    ExtrusionEntitiesPtr → Polylines → Except Fault ExtrusionEntitiesPtr
  | dst, [] => .ok dst
  | dst, polyline :: rest =>
    if polyline.is_valid then
      match polyline.points.getLast?, polyline.points.head? with
      | some back, some front =>
        if back = front then
          let path := ExtrusionPath.new role mm3_per_mm width height
          let path := { path with polyline := { points := polyline.points } }
          extrusion_entities_append_paths_move_loop role mm3_per_mm width height
            (dst ++ [.loop (ExtrusionLoop.of_path path .elrDefault)]) rest
        else
          let extrusion_path := ExtrusionPath.new role mm3_per_mm width height
          let moved := polyline
          extrusion_entities_append_paths_move_loop role mm3_per_mm width height
            (dst ++ [.path { extrusion_path with polyline := moved }]) rest
      | _, _ => .error .undefined_behaviour
    else
      extrusion_entities_append_paths_move_loop role mm3_per_mm width height dst rest

/-- The overload `extrusion_entities_append_paths(ExtrusionEntitiesPtr &dst,
Polylines &&polylines, ...)`: the loop, then `polylines.clear()`; returns the
final `dst` and `polylines`. -/
def extrusion_entities_append_paths_move (dst : ExtrusionEntitiesPtr) (polylines : Polylines)
    (role : ExtrusionRole) (mm3_per_mm width height : ℚ) :
    Except Fault (ExtrusionEntitiesPtr × Polylines) :=
  match extrusion_entities_append_paths_move_loop role mm3_per_mm width height dst polylines with
  | .error f => .error f
  | .ok out => .ok (out, [])

/-- The loop of `extrusion_entities_append_loops(ExtrusionEntitiesPtr&, Polygons&&, ...)`.
The points of a valid polygon are moved into the path, whose own first point is
then pushed at its end; the polygon moved from is not read again. -/
def extrusion_entities_append_loops_move_loop (role : ExtrusionRole)
    (mm3_per_mm width height : ℚ) :
    ExtrusionEntitiesPtr → Polygons → Except Fault ExtrusionEntitiesPtr
  | dst, [] => .ok dst
  | dst, poly :: rest =>
    if poly.is_valid then
      let path := ExtrusionPath.new role mm3_per_mm width height
      let moved := poly.points
      let path := { path with polyline := { points := moved } }
      match path.polyline.points.head? with
      | none => .error .undefined_behaviour
      | some front =>
        let path := { path with polyline := { points := path.polyline.points ++ [front] } }
        extrusion_entities_append_loops_move_loop role mm3_per_mm width height
          (dst ++ [.loop (ExtrusionLoop.of_path path .elrDefault)]) rest
    else
      extrusion_entities_append_loops_move_loop role mm3_per_mm width height dst rest

/-- The overload `extrusion_entities_append_loops(ExtrusionEntitiesPtr &dst,
Polygons &&loops, ...)`: the loop, then `loops.clear()`; returns the final `dst`
and `loops`. -/
def extrusion_entities_append_loops_move (dst : ExtrusionEntitiesPtr) (loops : Polygons)
    (role : ExtrusionRole) (mm3_per_mm width height : ℚ) :
    Except Fault (ExtrusionEntitiesPtr × Polygons) :=
  match extrusion_entities_append_loops_move_loop role mm3_per_mm width height dst loops with
  | .error f => .error f
  | .ok out => .ok (out, [])

/-! ## Further notions and inputs of the statements -/

/-- The points of the first sequence followed by the points of every later
sequence without its first point: the result that `as_polyline()` is written to
build. -/
def join_tails : List Points → Points
  | [] => []
  | first :: later => first ++ (later.map List.tail).flatten

/-- A non-planar path with the points (0,0), (10,0) at the elevations 0, 5. -/
def rising_path3D : ExtrusionPath3D :=
  { toExtrusionPath :=
      { ExtrusionPath.new .erPerimeter 1 (2 / 5) (1 / 5) with
        polyline := { points := [⟨0, 0⟩, ⟨10, 0⟩] } },
    z_offsets := [0, 5] }

theorem endpoints_adjacent_iff_chain (seqs : List Points) :
    endpoints_adjacent seqs ↔ List.Chain' (fun a b => a.getLast? = b.head?) seqs := by
  induction seqs with
  | nil => simp [endpoints_adjacent]
  | cons a rest ih =>
    cases rest with
    | nil => simp [endpoints_adjacent]
    | cons b rest => simp only [endpoints_adjacent, List.chain'_cons, ih]

theorem polyline_valid_shape {polyline : Polyline} (h : polyline.is_valid = true) :
    ∃ a b rest, polyline.points = a :: b :: rest := by
  unfold Polyline.is_valid at h
  match hp : polyline.points with
  | [] => simp [hp] at h
  | [_] => simp [hp] at h
  | a :: b :: rest => exact ⟨a, b, rest, rfl⟩

theorem polygon_valid_shape {poly : Polygon} (h : poly.is_valid = true) :
    ∃ a rest, poly.points = a :: rest := by
  unfold Polygon.is_valid at h
  match hp : poly.points with
  | [] => simp [hp] at h
  | a :: rest => exact ⟨a, rest, rfl⟩

theorem extrusion_entities_append_paths_loop_eq (role : ExtrusionRole)
    (mm3_per_mm width height : ℚ) (polylines : Polylines) :
    ∀ dst : ExtrusionEntitiesPtr,
      extrusion_entities_append_paths_loop role mm3_per_mm width height dst polylines =
        .ok (dst ++ (polylines.filter (fun pl => pl.is_valid)).map
          (entity_of_polyline role mm3_per_mm width height)) := by
  induction polylines with
  | nil => intro dst; simp [extrusion_entities_append_paths_loop]
  | cons polyline rest ih =>
    intro dst
    unfold extrusion_entities_append_paths_loop
    by_cases hv : polyline.is_valid = true
    · obtain ⟨a, b, tl, hp⟩ := polyline_valid_shape hv
      have hl : polyline.points.getLast? = some ((b :: tl).getLast (by simp)) := by
        rw [hp, List.getLast?_eq_getLast _ (by simp), List.getLast_cons (by simp)]
      have hh : polyline.points.head? = some a := by rw [hp]; rfl
      simp only [hv, if_true, hl, hh]
      by_cases hc : (b :: tl).getLast (by simp) = a
      · simp [hc, ih, entity_of_polyline, hl, hh, hv, ExtrusionLoop.of_path]
      · simp [hc, ih, entity_of_polyline, hl, hh, hv]
    · simp [hv, ih]

theorem extrusion_entities_append_paths_eq (dst : ExtrusionEntitiesPtr) (polylines : Polylines)
    (role : ExtrusionRole) (mm3_per_mm width height : ℚ) :
    extrusion_entities_append_paths dst polylines role mm3_per_mm width height =
      .ok (dst ++ (polylines.filter (fun pl => pl.is_valid)).map
        (entity_of_polyline role mm3_per_mm width height), polylines) := by
  simp [extrusion_entities_append_paths, extrusion_entities_append_paths_loop_eq]

theorem extrusion_entities_append_loops_loop_eq (role : ExtrusionRole)
    (mm3_per_mm width height : ℚ) (loops : Polygons) :
    ∀ dst : ExtrusionEntitiesPtr,
      extrusion_entities_append_loops_loop role mm3_per_mm width height dst loops =
        .ok (dst ++ (loops.filter (fun pg => pg.is_valid)).map
          (entity_of_polygon role mm3_per_mm width height)) := by
  induction loops with
  | nil => intro dst; simp [extrusion_entities_append_loops_loop]
  | cons poly rest ih =>
    intro dst
    unfold extrusion_entities_append_loops_loop
    by_cases hv : poly.is_valid = true
    · obtain ⟨a, tl, hp⟩ := polygon_valid_shape hv
      simp [hv, hp, ih, entity_of_polygon, ExtrusionLoop.of_path]
    · simp [hv, ih]

theorem extrusion_entities_append_loops_eq (dst : ExtrusionEntitiesPtr) (loops : Polygons)
    (role : ExtrusionRole) (mm3_per_mm width height : ℚ) :
    extrusion_entities_append_loops dst loops role mm3_per_mm width height =
      .ok (dst ++ (loops.filter (fun pg => pg.is_valid)).map
        (entity_of_polygon role mm3_per_mm width height), loops) := by
  simp [extrusion_entities_append_loops, extrusion_entities_append_loops_loop_eq]

theorem extrusion_paths_append_loop_eq (role : ExtrusionRole)
    (mm3_per_mm width height : ℚ) (polylines : Polylines) :
    ∀ dst : ExtrusionPaths,
      extrusion_paths_append_loop role mm3_per_mm width height dst polylines =
        dst ++ (polylines.filter (fun pl => pl.is_valid)).map
          (fun pl => { ExtrusionPath.new role mm3_per_mm width height with polyline := pl }) := by
  induction polylines with
  | nil => intro dst; simp [extrusion_paths_append_loop]
  | cons polyline rest ih =>
    intro dst
    unfold extrusion_paths_append_loop
    by_cases hv : polyline.is_valid = true
    · simp [hv, ih]
    · simp [hv, ih]

/-! ## Classification helpers -/

/-- C1: `extrusion_entities_append_paths` classifies every valid input on its
own. It returns normally, and the appended entities correspond one to one, in
order, to the valid inputs: an input whose first and last points are equal
gives a Loop (`is_loop` true) holding exactly one Path with the whole input
point sequence, any other input gives a plain Path (`is_loop` false) with the
input point sequence. -/
theorem C1_append_paths_classifies (dst : ExtrusionEntitiesPtr) (polylines : Polylines)
    (role : ExtrusionRole) (mm3_per_mm width height : ℚ) :
    ∃ appended : ExtrusionEntitiesPtr,
      extrusion_entities_append_paths dst polylines role mm3_per_mm width height =
        .ok (dst ++ appended, polylines) ∧
      List.Forall₂
        (fun (polyline : Polyline) (e : ExtrusionEntity) =>
          (polyline.points.head? = polyline.points.getLast? →
            e.is_loop = true ∧
            ∃ path : ExtrusionPath,
              e = .loop { paths := [path], m_loop_role := .elrDefault } ∧
              path.polyline.points = polyline.points) ∧
          (polyline.points.head? ≠ polyline.points.getLast? →
            e.is_loop = false ∧
            ∃ path : ExtrusionPath, e = .path path ∧ path.polyline.points = polyline.points))
        (polylines.filter (fun pl => pl.is_valid)) appended := by
  refine ⟨_, extrusion_entities_append_paths_eq dst polylines role mm3_per_mm width height, ?_⟩
  rw [List.forall₂_map_right_iff]
  apply List.forall₂_same.mpr
  intro polyline _
  constructor
  · intro h
    simp [entity_of_polyline, h, ExtrusionEntity.is_loop, ExtrusionLoop.is_loop]
  · intro h
    have h2 : ¬ polyline.points.getLast? = polyline.points.head? := fun e => h e.symm
    simp [entity_of_polyline, h2, ExtrusionEntity.is_loop, ExtrusionPath.is_loop]

/-- C2: an invalid input contributes no entity and raises no error. Each of
`extrusion_entities_append_paths`, `extrusion_entities_append_loops` and
`extrusion_paths_append` returns normally, leaves in the destination what the
batch without its invalid inputs leaves, and appends as many entities as there
are valid inputs. The empty and the single-point sequence are invalid, and a
batch of one single-point sequence appends nothing. -/
theorem C2_invalid_inputs_skipped (polylines : Polylines) (loops : Polygons)
    (role : ExtrusionRole) (mm3_per_mm width height : ℚ) :
    (∀ dst : ExtrusionEntitiesPtr, ∃ out : ExtrusionEntitiesPtr,
      extrusion_entities_append_paths dst polylines role mm3_per_mm width height =
        .ok (out, polylines) ∧
      extrusion_entities_append_paths dst (polylines.filter (fun pl => pl.is_valid))
          role mm3_per_mm width height =
        .ok (out, polylines.filter (fun pl => pl.is_valid)) ∧
      out.length = dst.length + (polylines.filter (fun pl => pl.is_valid)).length) ∧
    (∀ dst : ExtrusionEntitiesPtr, ∃ out : ExtrusionEntitiesPtr,
      extrusion_entities_append_loops dst loops role mm3_per_mm width height =
        .ok (out, loops) ∧
      extrusion_entities_append_loops dst (loops.filter (fun pg => pg.is_valid))
          role mm3_per_mm width height =
        .ok (out, loops.filter (fun pg => pg.is_valid)) ∧
      out.length = dst.length + (loops.filter (fun pg => pg.is_valid)).length) ∧
    (∀ dst : ExtrusionPaths,
      (extrusion_paths_append dst polylines role mm3_per_mm width height).1 =
        (extrusion_paths_append dst (polylines.filter (fun pl => pl.is_valid))
          role mm3_per_mm width height).1 ∧
      (extrusion_paths_append dst polylines role mm3_per_mm width height).1.length =
        dst.length + (polylines.filter (fun pl => pl.is_valid)).length) ∧
    Polyline.is_valid { points := [] } = false ∧
    (∀ pt : Point, Polyline.is_valid { points := [pt] } = false) ∧
    (∀ (dst : ExtrusionEntitiesPtr) (pt : Point),
      extrusion_entities_append_paths dst [{ points := [pt] }] role mm3_per_mm width height =
        .ok (dst, [{ points := [pt] }])) ∧
    (∀ (dst : ExtrusionEntitiesPtr) (pt : Point),
      extrusion_entities_append_loops dst [{ points := [pt] }] role mm3_per_mm width height =
        .ok (dst, [{ points := [pt] }])) ∧
    (∀ (dst : ExtrusionPaths) (pt : Point),
      (extrusion_paths_append dst [{ points := [pt] }] role mm3_per_mm width height).1 = dst) := by
  refine ⟨?_, ?_, ?_, ?_, ?_, ?_, ?_, ?_⟩
  · intro dst
    refine ⟨_, extrusion_entities_append_paths_eq dst polylines role mm3_per_mm width height, ?_, ?_⟩
    · rw [extrusion_entities_append_paths_eq, List.filter_filter]
      simp
    · simp
  · intro dst
    refine ⟨_, extrusion_entities_append_loops_eq dst loops role mm3_per_mm width height, ?_, ?_⟩
    · rw [extrusion_entities_append_loops_eq, List.filter_filter]
      simp
    · simp
  · intro dst
    simp [extrusion_paths_append, extrusion_paths_append_loop_eq, List.filter_filter]
  · simp [Polyline.is_valid]
  · intro pt; simp [Polyline.is_valid]
  · intro dst pt
    rw [extrusion_entities_append_paths_eq]
    simp [Polyline.is_valid]
  · intro dst pt
    rw [extrusion_entities_append_loops_eq]
    simp [Polygon.is_valid]
  · intro dst pt
    simp [extrusion_paths_append, extrusion_paths_append_loop_eq, Polyline.is_valid]

/-- C3: after `extrusion_entities_append_paths` the destination is the old
destination followed by one entity per valid input, in input order: the old
entries keep their positions and values, and the entity at position
`dst.size() + i` is the Path or the one-Path Loop that carries the points of
the i-th valid input. -/
theorem C3_append_paths_frame (dst : ExtrusionEntitiesPtr) (polylines : Polylines)
    (role : ExtrusionRole) (mm3_per_mm width height : ℚ) :
    ∃ out : ExtrusionEntitiesPtr,
      extrusion_entities_append_paths dst polylines role mm3_per_mm width height =
        .ok (out, polylines) ∧
      out.take dst.length = dst ∧
      (∀ i : Nat, i < dst.length → out[i]? = dst[i]?) ∧
      out.length = dst.length + (polylines.filter (fun pl => pl.is_valid)).length ∧
      (∀ (i : Nat) (polyline : Polyline),
        (polylines.filter (fun pl => pl.is_valid))[i]? = some polyline →
        ∃ path : ExtrusionPath,
          path.polyline.points = polyline.points ∧
          (out[dst.length + i]? = some (.path path) ∨
           out[dst.length + i]? =
             some (.loop { paths := [path], m_loop_role := .elrDefault }))) := by
  refine ⟨_, extrusion_entities_append_paths_eq dst polylines role mm3_per_mm width height,
    ?_, ?_, ?_, ?_⟩
  · simp
  · intro i hi
    exact List.getElem?_append_left hi
  · simp
  · intro i polyline hi
    rw [List.getElem?_append_right (Nat.le_add_right _ _)]
    simp only [Nat.add_sub_cancel_left, List.getElem?_map, hi, Option.map_some']
    by_cases hc : polyline.points.getLast? = polyline.points.head?
    · refine ⟨{ ExtrusionPath.new role mm3_per_mm width height with
                polyline := { points := polyline.points } }, rfl, Or.inr ?_⟩
      simp [entity_of_polyline, hc]
    · refine ⟨{ ExtrusionPath.new role mm3_per_mm width height with
                polyline := polyline }, rfl, Or.inl ?_⟩
      simp [entity_of_polyline, hc]

/-- C4: every entity appended by `extrusion_entities_append_paths` or by
`extrusion_entities_append_loops` carries the supplied metadata: its `role()`
is the supplied role, and its Path (the entity itself, or the single Path of
the Loop) has the supplied `mm3_per_mm`, `width` and `height`, feedrate 0,
extruder id 0 and color id 0. -/
theorem C4_appended_metadata (dst : ExtrusionEntitiesPtr) (polylines : Polylines)
    (loops : Polygons) (role : ExtrusionRole) (mm3_per_mm width height : ℚ) :
    (∃ appended : ExtrusionEntitiesPtr,
      extrusion_entities_append_paths dst polylines role mm3_per_mm width height =
        .ok (dst ++ appended, polylines) ∧
      ∀ e ∈ appended, e.role = role ∧
        ∃ path : ExtrusionPath,
          (e = .path path ∨ e = .loop { paths := [path], m_loop_role := .elrDefault }) ∧
          path.role = role ∧ path.mm3_per_mm = mm3_per_mm ∧ path.width = width ∧
          path.height = height ∧ path.feedrate = 0 ∧ path.extruder_id = 0 ∧
          path.cp_color_id = 0) ∧
    (∃ appended : ExtrusionEntitiesPtr,
      extrusion_entities_append_loops dst loops role mm3_per_mm width height =
        .ok (dst ++ appended, loops) ∧
      ∀ e ∈ appended, e.role = role ∧
        ∃ path : ExtrusionPath,
          e = .loop { paths := [path], m_loop_role := .elrDefault } ∧
          path.role = role ∧ path.mm3_per_mm = mm3_per_mm ∧ path.width = width ∧
          path.height = height ∧ path.feedrate = 0 ∧ path.extruder_id = 0 ∧
          path.cp_color_id = 0) := by
  constructor
  · refine ⟨_, extrusion_entities_append_paths_eq dst polylines role mm3_per_mm width height, ?_⟩
    intro e he
    obtain ⟨polyline, _, rfl⟩ := List.mem_map.mp he
    by_cases hc : polyline.points.getLast? = polyline.points.head?
    · refine ⟨by simp [entity_of_polyline, hc, ExtrusionEntity.role, ExtrusionLoop.role,
        ExtrusionPath.role, ExtrusionPath.new],
        { ExtrusionPath.new role mm3_per_mm width height with
          polyline := { points := polyline.points } }, Or.inr ?_, ?_⟩
      · simp [entity_of_polyline, hc]
      · simp [ExtrusionPath.role, ExtrusionPath.new]
    · refine ⟨by simp [entity_of_polyline, hc, ExtrusionEntity.role,
        ExtrusionPath.role, ExtrusionPath.new],
        { ExtrusionPath.new role mm3_per_mm width height with
          polyline := polyline }, Or.inl ?_, ?_⟩
      · simp [entity_of_polyline, hc]
      · simp [ExtrusionPath.role, ExtrusionPath.new]
  · refine ⟨_, extrusion_entities_append_loops_eq dst loops role mm3_per_mm width height, ?_⟩
    intro e he
    obtain ⟨poly, _, rfl⟩ := List.mem_map.mp he
    refine ⟨by simp [entity_of_polygon, ExtrusionEntity.role, ExtrusionLoop.role,
        ExtrusionPath.role, ExtrusionPath.new],
        { ExtrusionPath.new role mm3_per_mm width height with
          polyline := { points := poly.points ++ poly.points.take 1 } }, ?_, ?_⟩
    · simp [entity_of_polygon]
    · simp [ExtrusionPath.role, ExtrusionPath.new]

/-- C5: every Loop appended by `extrusion_entities_append_paths` or by
`extrusion_entities_append_loops` is closed: the first point of its first path
is the last point of its last path, so `first_point()` and `last_point()` both
return normally (the assertion inside `last_point()` holds) with the same
point. -/
theorem C5_appended_loops_closed (dst : ExtrusionEntitiesPtr) (polylines : Polylines)
    (loops : Polygons) (role : ExtrusionRole) (mm3_per_mm width height : ℚ) :
    (∃ appended : ExtrusionEntitiesPtr,
      extrusion_entities_append_paths dst polylines role mm3_per_mm width height =
        .ok (dst ++ appended, polylines) ∧
      ∀ l : ExtrusionLoop, ExtrusionEntity.loop l ∈ appended →
        ∃ (pt : Point) (front back : ExtrusionPath),
          l.paths.head? = some front ∧ l.paths.getLast? = some back ∧
          front.polyline.points.head? = some pt ∧
          back.polyline.points.getLast? = some pt ∧
          l.first_point = .ok pt ∧ l.last_point = .ok pt) ∧
    (∃ appended : ExtrusionEntitiesPtr,
      extrusion_entities_append_loops dst loops role mm3_per_mm width height =
        .ok (dst ++ appended, loops) ∧
      (∀ e ∈ appended, ∃ l : ExtrusionLoop, e = .loop l) ∧
      ∀ l : ExtrusionLoop, ExtrusionEntity.loop l ∈ appended →
        ∃ (pt : Point) (front back : ExtrusionPath),
          l.paths.head? = some front ∧ l.paths.getLast? = some back ∧
          front.polyline.points.head? = some pt ∧
          back.polyline.points.getLast? = some pt ∧
          l.first_point = .ok pt ∧ l.last_point = .ok pt) := by
  constructor
  · refine ⟨_, extrusion_entities_append_paths_eq dst polylines role mm3_per_mm width height, ?_⟩
    intro l hl
    obtain ⟨polyline, hmem, he⟩ := List.mem_map.mp hl
    have hv : polyline.is_valid = true := by simpa using (List.mem_filter.mp hmem).2
    obtain ⟨a, b, tl, hp⟩ := polyline_valid_shape hv
    by_cases hc : polyline.points.getLast? = polyline.points.head?
    · simp only [entity_of_polyline, hc, if_true, ExtrusionEntity.loop.injEq] at he
      subst he
      have hh : polyline.points.head? = some a := by rw [hp]; rfl
      refine ⟨a, _, _, rfl, rfl, hh, hc.trans hh, ?_, ?_⟩
      · simp [ExtrusionLoop.first_point, ExtrusionPath.first_point, hh]
      · simp [ExtrusionLoop.last_point, ExtrusionLoop.first_point, ExtrusionPath.first_point,
          ExtrusionPath.last_point, hh, hc]
    · simp [entity_of_polyline, hc] at he
  · refine ⟨_, extrusion_entities_append_loops_eq dst loops role mm3_per_mm width height, ?_, ?_⟩
    · intro e he
      obtain ⟨poly, _, rfl⟩ := List.mem_map.mp he
      exact ⟨_, rfl⟩
    · intro l hl
      obtain ⟨poly, hmem, he⟩ := List.mem_map.mp hl
      have hv : poly.is_valid = true := by simpa using (List.mem_filter.mp hmem).2
      obtain ⟨a, tl, hp⟩ := polygon_valid_shape hv
      simp only [entity_of_polygon, ExtrusionEntity.loop.injEq] at he
      subst he
      have hg : (poly.points ++ poly.points.take 1).getLast? = some a := by
        rw [hp]
        exact List.getLast?_concat (a :: tl)
      have hf : (poly.points ++ poly.points.take 1).head? = some a := by
        rw [hp]; rfl
      refine ⟨a, _, _, rfl, rfl, hf, hg, ?_, ?_⟩
      · simp [ExtrusionLoop.first_point, ExtrusionPath.first_point, hf]
      · simp [ExtrusionLoop.last_point, ExtrusionLoop.first_point, ExtrusionPath.first_point,
          ExtrusionPath.last_point, hf, hg]

/-- C6: `extrusion_entities_append_loops` returns normally and appends, for
every valid polygon with points p0..p(n-1), in order, a Loop with exactly one
Path whose points are p0..p(n-1) followed by p0 (n+1 points); it never appends
a plain Path. -/
theorem C6_append_loops_closed_boundary (dst : ExtrusionEntitiesPtr) (loops : Polygons)
    (role : ExtrusionRole) (mm3_per_mm width height : ℚ) :
    ∃ appended : ExtrusionEntitiesPtr,
      extrusion_entities_append_loops dst loops role mm3_per_mm width height =
        .ok (dst ++ appended, loops) ∧
      List.Forall₂
        (fun (poly : Polygon) (e : ExtrusionEntity) =>
          ∃ (p0 : Point) (path : ExtrusionPath),
            poly.points.head? = some p0 ∧
            e = .loop { paths := [path], m_loop_role := .elrDefault } ∧
            path.polyline.points = poly.points ++ [p0] ∧
            path.polyline.points.length = poly.points.length + 1)
        (loops.filter (fun pg => pg.is_valid)) appended ∧
      (∀ e ∈ appended, e.is_loop = true) ∧
      (∀ path : ExtrusionPath, ExtrusionEntity.path path ∉ appended) := by
  refine ⟨_, extrusion_entities_append_loops_eq dst loops role mm3_per_mm width height,
    ?_, ?_, ?_⟩
  · rw [List.forall₂_map_right_iff]
    apply List.forall₂_same.mpr
    intro poly hmem
    have hv : poly.is_valid = true := by simpa using (List.mem_filter.mp hmem).2
    obtain ⟨a, tl, hp⟩ := polygon_valid_shape hv
    refine ⟨a, { ExtrusionPath.new role mm3_per_mm width height with
                 polyline := { points := poly.points ++ [a] } }, ?_, ?_, rfl, ?_⟩
    · simp [hp]
    · simp [entity_of_polygon, hp]
    · simp
  · intro e he
    obtain ⟨poly, _, rfl⟩ := List.mem_map.mp he
    simp [entity_of_polygon, ExtrusionEntity.is_loop, ExtrusionLoop.is_loop]
  · intro path he
    obtain ⟨poly, _, h⟩ := List.mem_map.mp he
    simp [entity_of_polygon] at h

/-! ## Composites -/

namespace ExtrusionMultiEntity

variable {THING : Type} [ExtrusionThing THING]

theorem length_le_sum_of_nonempty (paths : List THING)
    (hne : ∀ t ∈ paths, pts t ≠ []) :
    paths.length ≤ (paths.map (fun t => (pts t).length)).sum := by
  induction paths with
  | nil => simp
  | cons t rest ih =>
    have h1 : 0 < (pts t).length := List.length_pos.mpr (hne t (List.mem_cons_self _ _))
    have h2 := ih (fun u hu => hne u (List.mem_cons_of_mem _ hu))
    simp only [List.length_cons, List.map_cons, List.sum_cons]
    omega

theorem as_polyline_len_some (paths : List THING) :
    ∀ (before : THING) (len : Nat), (∀ t ∈ paths, pts t ≠ []) →
      List.Chain (fun a b => (pts a).getLast? = (pts b).head?) before paths →
      as_polyline_len (some before) paths len =
        .ok (len + (paths.map (fun t => (pts t).length)).sum) := by
  induction paths with
  | nil => intro before len _ _; simp [as_polyline_len]
  | cons t rest ih =>
    intro before len hne hch
    have ht : pts t ≠ [] := hne t (List.mem_cons_self _ _)
    obtain ⟨hrel, hrest⟩ := List.chain_cons.mp hch
    unfold as_polyline_len
    simp only [List.isEmpty_iff, ht, if_false, hrel, if_true]
    rw [ih t _ (fun u hu => hne u (List.mem_cons_of_mem _ hu)) hrest]
    simp [Nat.add_assoc]

theorem as_polyline_len_none (paths : List THING) (len : Nat)
    (hne : ∀ t ∈ paths, pts t ≠ [])
    (hadj : List.Chain' (fun a b => (pts a).getLast? = (pts b).head?) paths) :
    as_polyline_len none paths len =
      .ok (len + (paths.map (fun t => (pts t).length)).sum) := by
  cases paths with
  | nil => simp [as_polyline_len]
  | cons t rest =>
    have ht : pts t ≠ [] := hne t (List.mem_cons_self _ _)
    unfold as_polyline_len
    simp only [List.isEmpty_iff, ht, if_false]
    rw [as_polyline_len_some rest t _ (fun u hu => hne u (List.mem_cons_of_mem _ hu)) hadj]
    simp [Nat.add_assoc]

/-- The insertion of a range whose iterators point into one and the same vector
object appends the points of the range. -/
theorem vector_insert_at_end_same_object (out content : Points) (object : Nat) :
    vector_insert_at_end out (PointsIterator.vec_begin_plus object content 1)
        (PointsIterator.vec_end object content) =
      if 1 ≤ content.length then .ok (out ++ content.tail) else .error .undefined_behaviour := by
  cases content with
  | nil =>
    simp [vector_insert_at_end, PointsIterator.valid_range, PointsIterator.vec_begin_plus,
      PointsIterator.vec_end]
  | cons a later =>
    simp [vector_insert_at_end, PointsIterator.valid_range, PointsIterator.range_points,
      PointsIterator.vec_begin_plus, PointsIterator.vec_end]

/-- The insertion of a range whose iterators point into two different vector
objects is undefined. -/
theorem vector_insert_at_end_other_object (out : Points) (first last : PointsIterator)
    (h : first.object ≠ last.object) :
    vector_insert_at_end out first last = .error .undefined_behaviour := by
  simp [vector_insert_at_end, PointsIterator.valid_range, h]

/-- The second loop of `as_polyline()` is undefined in its first round. -/
theorem as_polyline_insert_undefined (fresh : Nat) (out : Points) (path : THING)
    (rest : List THING) :
    as_polyline_insert fresh out (path :: rest) = .error .undefined_behaviour := by
  unfold as_polyline_insert
  simp only
  rw [vector_insert_at_end_other_object _ _ _
    (by simp [PointsIterator.vec_begin_plus, PointsIterator.vec_end])]

/-- On a composite with at least one sub-path `as_polyline()` never returns
normally. -/
theorem as_polyline_not_ok (m : ExtrusionMultiEntity THING) (h : m.paths ≠ []) :
    ¬ ∃ out : Polyline, m.as_polyline = .ok out := by
  obtain ⟨paths⟩ := m
  cases paths with
  | nil => exact absurd rfl h
  | cons front rest =>
    rintro ⟨out, hout⟩
    unfold as_polyline at hout
    simp only [as_polyline_insert_undefined] at hout
    split at hout
    · exact Except.noConfusion hout
    · split at hout
      · exact Except.noConfusion hout
      · split at hout <;> exact Except.noConfusion hout

/-- On a composite with at least one sub-path that meets the assertions of
`as_polyline()` the call runs into the undefined insertion. -/
theorem as_polyline_undefined (front : THING) (rest : List THING)
    (hne : ∀ t ∈ front :: rest, pts t ≠ [])
    (hadj : List.Chain' (fun a b => (pts a).getLast? = (pts b).head?) (front :: rest)) :
    as_polyline ({ paths := front :: rest } : ExtrusionMultiEntity THING) =
      .error .undefined_behaviour := by
  have hf : pts front ≠ [] := hne front (List.mem_cons_self _ _)
  have hsum := length_le_sum_of_nonempty (front :: rest) hne
  obtain ⟨p0, later, hp⟩ := List.exists_cons_of_ne_nil hf
  unfold as_polyline
  simp only [as_polyline_len_none (front :: rest) 0 hne hadj, as_polyline_insert_undefined]
  simp only [List.length_cons, List.map_cons, List.sum_cons, hp] at hsum
  simp [hp]
  omega

theorem concat_shared_endpoints_eq (front : Points) (rest : List Points)
    (hne : ∀ s ∈ front :: rest, s ≠ [])
    (hadj : endpoints_adjacent (front :: rest)) :
    concat_shared_endpoints (front :: rest) =
      front ++ (rest.map List.tail).flatten := by
  induction rest generalizing front with
  | nil => simp [concat_shared_endpoints]
  | cons b rest ih =>
    have hb : b ≠ [] := hne b (by simp)
    obtain ⟨hrel, hrest⟩ := hadj
    obtain ⟨b0, btl, hbp⟩ := List.exists_cons_of_ne_nil hb
    have hlast : front.getLast? = some b0 := by rw [hrel, hbp]; rfl
    have hfront : front.dropLast ++ [b0] = front :=
      List.dropLast_append_getLast? b0 (by simp [hlast])
    simp only [concat_shared_endpoints]
    rw [ih b (fun s hs => hne s (List.mem_cons_of_mem _ hs)) hrest]
    conv_rhs => rw [← hfront]
    simp [hbp]

end ExtrusionMultiEntity

/-- C7, the code at the failing input: the composite `[(0,0),(10,0)]`,
`[(10,0),(10,10),(0,10)]` has non-empty sub-paths that share the endpoint (10,0),
and the flattening the claim describes is (0,0), (10,0), (10,10), (0,10). On it
`as_polyline()` passes its assertions and then hands `insert` a range made of
iterators of two different temporaries: the behaviour is undefined and no
polyline is returned; the same holds of every composite of plain or of
non-planar paths that has a sub-path. -/
theorem C7_as_polyline_insert_undefined :
    (∀ t ∈ two_segment_multipath.paths, ExtrusionMultiEntity.pts t ≠ []) ∧
    endpoints_adjacent (two_segment_multipath.paths.map ExtrusionMultiEntity.pts) ∧
    concat_shared_endpoints (two_segment_multipath.paths.map ExtrusionMultiEntity.pts) =
      [⟨0, 0⟩, ⟨10, 0⟩, ⟨10, 10⟩, ⟨0, 10⟩] ∧
    two_segment_multipath.toExtrusionMultiEntity.as_polyline = .error .undefined_behaviour ∧
    (¬ ∃ out : Polyline, two_segment_multipath.toExtrusionMultiEntity.as_polyline = .ok out) ∧
    (∀ m : ExtrusionMultiEntity ExtrusionPath, m.paths ≠ [] →
      ¬ ∃ out : Polyline, m.as_polyline = .ok out) ∧
    (∀ m : ExtrusionMultiEntity ExtrusionPath3D, m.paths ≠ [] →
      ¬ ∃ out : Polyline, m.as_polyline = .ok out) := by
  refine ⟨by decide, by decide, by decide, rfl, ?_, ?_, ?_⟩
  · exact ExtrusionMultiEntity.as_polyline_not_ok _ (by decide)
  · intro m h
    exact ExtrusionMultiEntity.as_polyline_not_ok m h
  · intro m h
    exact ExtrusionMultiEntity.as_polyline_not_ok m h

theorem endpoints_adjacent_reverse (seqs : List Points)
    (hadj : endpoints_adjacent seqs) :
    endpoints_adjacent ((seqs.map List.reverse).reverse) := by
  rw [endpoints_adjacent_iff_chain] at hadj ⊢
  rw [List.chain'_reverse, List.chain'_map]
  refine List.Chain'.imp ?_ hadj
  intro a b hab
  simp only [flip, List.getLast?_reverse, List.head?_reverse]
  exact hab.symm

/-- C8: on a composite of plain paths whose sub-paths are all non-empty and
whose consecutive sub-paths share an endpoint, `reverse()` reverses the order of
the sub-paths and the points of each sub-path (the sub-path at index i, with its
points reversed and its other fields untouched, ends up at index n-1-i), and in
the result every sub-path is still non-empty and each sub-path's last point is
the next sub-path's first point. -/
theorem C8_reverse_keeps_adjacency (m : ExtrusionMultiPath)
    (hne : ∀ p ∈ m.paths, p.polyline.points ≠ [])
    (hadj : endpoints_adjacent (m.paths.map (fun p => p.polyline.points))) :
    m.reverse.paths.length = m.paths.length ∧
    (∀ (i : Nat) (p : ExtrusionPath), m.paths[i]? = some p →
      m.reverse.paths[m.paths.length - 1 - i]? =
        some { p with polyline := { points := p.polyline.points.reverse } }) ∧
    (∀ p ∈ m.reverse.paths, p.polyline.points ≠ []) ∧
    endpoints_adjacent (m.reverse.paths.map (fun p => p.polyline.points)) := by
  have hpaths : m.reverse.paths = (m.paths.map ExtrusionPath.reverse).reverse := rfl
  refine ⟨by simp [hpaths], ?_, ?_, ?_⟩
  · intro i p hi
    have hlt : i < m.paths.length := by
      by_contra hge
      rw [List.getElem?_eq_none (Nat.le_of_not_lt hge)] at hi
      exact Option.noConfusion hi
    have hj : m.paths.length - 1 - i < (m.paths.map ExtrusionPath.reverse).length := by
      simp only [List.length_map]; omega
    rw [hpaths, List.getElem?_reverse hj, List.length_map, List.getElem?_map]
    have hidx : m.paths.length - 1 - (m.paths.length - 1 - i) = i := by omega
    rw [hidx, hi]
    rfl
  · intro p hp
    rw [hpaths, List.mem_reverse, List.mem_map] at hp
    obtain ⟨q, hq, rfl⟩ := hp
    have := hne q hq
    simpa [ExtrusionPath.reverse, Polyline.reverse] using this
  · have h := endpoints_adjacent_reverse _ hadj
    have hmap : m.reverse.paths.map (fun p => p.polyline.points) =
        ((m.paths.map (fun p => p.polyline.points)).map List.reverse).reverse := by
      rw [hpaths, List.map_reverse, List.map_map, List.map_map]
      rfl
    rw [hmap]
    exact h

/-- Witness of C8: the composite `[(0,0),(10,0)]`, `[(10,0),(10,10),(0,10)]`. -/
theorem C8_reverse_keeps_adjacency_witness :
    (∀ p ∈ two_segment_multipath.paths, p.polyline.points ≠ []) ∧
    endpoints_adjacent (two_segment_multipath.paths.map (fun p => p.polyline.points)) ∧
    two_segment_multipath.reverse.paths.length = two_segment_multipath.paths.length ∧
    (∀ (i : Nat) (p : ExtrusionPath), two_segment_multipath.paths[i]? = some p →
      two_segment_multipath.reverse.paths[two_segment_multipath.paths.length - 1 - i]? =
        some { p with polyline := { points := p.polyline.points.reverse } }) ∧
    (∀ p ∈ two_segment_multipath.reverse.paths, p.polyline.points ≠ []) ∧
    endpoints_adjacent (two_segment_multipath.reverse.paths.map (fun p => p.polyline.points)) :=
  ⟨by decide, by decide,
   C8_reverse_keeps_adjacency two_segment_multipath (by decide) (by decide)⟩

/-! ## Aggregate queries of a composite -/

theorem std_min_le_left (a b : ℚ) : std_min a b ≤ a := by
  unfold std_min
  split_ifs with h
  · exact le_of_lt h
  · exact le_refl a

theorem std_min_le_right (a b : ℚ) : std_min a b ≤ b := by
  unfold std_min
  split_ifs with h
  · exact le_refl b
  · exact not_lt.mp h

theorem std_min_eq_or (a b : ℚ) : std_min a b = a ∨ std_min a b = b := by
  unfold std_min
  split_ifs
  · exact Or.inr rfl
  · exact Or.inl rfl

/-- What the loop of `min_mm3_per_mm()` computes from a start value: a lower
bound of the start value and of every rate that is the start value or one of
the rates. -/
theorem foldl_std_min_spec {T : Type} (f : T → ℚ) (l : List T) :
    ∀ init : ℚ,
      l.foldl (fun acc t => std_min acc (f t)) init ≤ init ∧
      (∀ t ∈ l, l.foldl (fun acc t => std_min acc (f t)) init ≤ f t) ∧
      (l.foldl (fun acc t => std_min acc (f t)) init = init ∨
        ∃ t ∈ l, l.foldl (fun acc t => std_min acc (f t)) init = f t) := by
  induction l with
  | nil => intro init; simp
  | cons u rest ih =>
    intro init
    obtain ⟨h1, h2, h3⟩ := ih (std_min init (f u))
    simp only [List.foldl_cons]
    refine ⟨le_trans h1 (std_min_le_left _ _), ?_, ?_⟩
    · intro t ht
      rcases List.mem_cons.mp ht with rfl | ht
      · exact le_trans h1 (std_min_le_right _ _)
      · exact h2 t ht
    · rcases h3 with h3 | ⟨t, ht, h3⟩
      · rcases std_min_eq_or init (f u) with h | h
        · exact Or.inl (h3.trans h)
        · exact Or.inr ⟨u, List.mem_cons_self _ _, h3.trans h⟩
      · exact Or.inr ⟨t, List.mem_cons_of_mem _ ht, h3⟩

theorem foldl_std_min_perm {T : Type} (f : T → ℚ) (l₁ l₂ : List T) (init : ℚ)
    (hperm : l₁.Perm l₂) :
    l₁.foldl (fun acc t => std_min acc (f t)) init ≤
      l₂.foldl (fun acc t => std_min acc (f t)) init := by
  obtain ⟨a1, a2, _⟩ := foldl_std_min_spec f l₁ init
  obtain ⟨_, _, b3⟩ := foldl_std_min_spec f l₂ init
  rcases b3 with b3 | ⟨t, ht, b3⟩
  · rw [b3]; exact a1
  · rw [b3]; exact a2 t (hperm.mem_iff.mpr ht)

/-- C9: on a non-empty composite `min_mm3_per_mm()` is the minimum of the
sub-paths' `min_mm3_per_mm()` values: it is at most every sub-path's rate, it is
the rate of one of the sub-paths (the rates being finite doubles, none above
the largest finite double the loop starts from), and every permutation of the
sub-path sequence gives the same value. -/
theorem C9_min_mm3_per_mm_is_minimum {THING : Type} [ExtrusionThing THING]
    (m : ExtrusionMultiEntity THING) (hne : m.paths ≠ []) :
    (∀ t ∈ m.paths, m.min_mm3_per_mm ≤ (ExtrusionThing.base t).min_mm3_per_mm) ∧
    ((∀ t ∈ m.paths, (ExtrusionThing.base t).min_mm3_per_mm ≤ DBL_MAX) →
      ∃ t ∈ m.paths, m.min_mm3_per_mm = (ExtrusionThing.base t).min_mm3_per_mm) ∧
    (∀ m2 : ExtrusionMultiEntity THING, m2.paths.Perm m.paths →
      m2.min_mm3_per_mm = m.min_mm3_per_mm) := by
  obtain ⟨h1, h2, h3⟩ :=
    foldl_std_min_spec (fun t : THING => (ExtrusionThing.base t).min_mm3_per_mm) m.paths DBL_MAX
  refine ⟨h2, ?_, ?_⟩
  · intro hfin
    rcases h3 with h3 | h3
    · obtain ⟨t, rest, hp⟩ := List.exists_cons_of_ne_nil hne
      have ht : t ∈ m.paths := by rw [hp]; exact List.mem_cons_self _ _
      refine ⟨t, ht, le_antisymm (h2 t ht) ?_⟩
      exact le_trans (hfin t ht) (le_of_eq h3.symm)
    · exact h3
  · intro m2 hperm
    exact le_antisymm (foldl_std_min_perm _ _ _ _ hperm) (foldl_std_min_perm _ _ _ _ hperm.symm)

/-- Witness of C9: the composite with the rates 2 and 1. -/
theorem C9_min_mm3_per_mm_is_minimum_witness :
    two_segment_multipath.paths ≠ [] ∧
    (∀ t ∈ two_segment_multipath.paths, (ExtrusionThing.base t).min_mm3_per_mm ≤ DBL_MAX) ∧
    two_segment_multipath.toExtrusionMultiEntity.min_mm3_per_mm = 1 ∧
    (∀ t ∈ two_segment_multipath.paths,
      two_segment_multipath.toExtrusionMultiEntity.min_mm3_per_mm ≤
        (ExtrusionThing.base t).min_mm3_per_mm) ∧
    ((∀ t ∈ two_segment_multipath.paths, (ExtrusionThing.base t).min_mm3_per_mm ≤ DBL_MAX) →
      ∃ t ∈ two_segment_multipath.paths,
        two_segment_multipath.toExtrusionMultiEntity.min_mm3_per_mm =
          (ExtrusionThing.base t).min_mm3_per_mm) ∧
    (∀ m2 : ExtrusionMultiEntity ExtrusionPath, m2.paths.Perm two_segment_multipath.paths →
      m2.min_mm3_per_mm = two_segment_multipath.toExtrusionMultiEntity.min_mm3_per_mm) :=
  ⟨by decide,
   by
    intro t ht
    simp only [two_segment_multipath, List.mem_cons, List.mem_singleton, List.not_mem_nil,
      or_false] at ht
    rcases ht with rfl | rfl <;>
      norm_num [ExtrusionThing.base, ExtrusionPath.min_mm3_per_mm, ExtrusionPath.new, DBL_MAX],
   by
    norm_num [two_segment_multipath, ExtrusionMultiEntity.min_mm3_per_mm, ExtrusionThing.base,
      ExtrusionPath.min_mm3_per_mm, ExtrusionPath.new, DBL_MAX, std_min],
   C9_min_mm3_per_mm_is_minimum two_segment_multipath.toExtrusionMultiEntity (by decide)⟩

theorem foldl_add_eq_sum {T : Type} (f : T → ℚ) (l : List T) :
    ∀ init : ℚ, l.foldl (fun volume t => volume + f t) init = init + (l.map f).sum := by
  induction l with
  | nil => intro init; simp
  | cons u rest ih =>
    intro init
    simp only [List.foldl_cons, List.map_cons, List.sum_cons, ih]
    ring

/-- C10: the `total_volume()` of a composite (empty or not) is the sum, over
its sub-paths in order, of each sub-path's `total_volume()`, and the total
volume of a sub-path is its extrusion rate times its unscaled arc length. -/
theorem C10_total_volume_is_sum {THING : Type} [ExtrusionThing THING]
    (ext : Externals) (m : ExtrusionMultiEntity THING) :
    m.total_volume ext =
      (m.paths.map (fun t => (ExtrusionThing.base t).total_volume ext)).sum ∧
    (∀ t ∈ m.paths, (ExtrusionThing.base t).total_volume ext =
      (ExtrusionThing.base t).mm3_per_mm *
        ext.unscale (ext.length (ExtrusionThing.base t))) := by
  constructor
  · unfold ExtrusionMultiEntity.total_volume
    rw [foldl_add_eq_sum]
    simp
  · intro t _
    rfl

/-! ## Reversal of a path -/

/-- C11: for every Path (with a non-empty point sequence or not) `reverse()`
reverses the point order, applying it twice restores the original path, point
order included, and one application leaves role, extrusion rate, width, height,
feedrate, extruder id and color id unchanged. -/
theorem C11_path_reverse_involution (p : ExtrusionPath) :
    p.reverse.polyline.points = p.polyline.points.reverse ∧
    p.reverse.reverse.polyline.points = p.polyline.points ∧
    p.reverse.reverse = p ∧
    p.reverse.role = p.role ∧
    p.reverse.mm3_per_mm = p.mm3_per_mm ∧
    p.reverse.width = p.width ∧
    p.reverse.height = p.height ∧
    p.reverse.feedrate = p.feedrate ∧
    p.reverse.extruder_id = p.extruder_id ∧
    p.reverse.cp_color_id = p.cp_color_id := by
  refine ⟨rfl, ?_, ?_, rfl, rfl, rfl, rfl, rfl, rfl, rfl⟩
  · simp [ExtrusionPath.reverse, Polyline.reverse]
  · cases p with
    | mk polyline mm3_per_mm width height feedrate extruder_id cp_color_id m_role =>
      simp [ExtrusionPath.reverse, Polyline.reverse]

/-! ## The non-planar composite and the non-planar path -/

/-- C15, the claim refuted: on the composite of one non-planar path `reverse()`
does not fail; it returns normally with the composite unchanged, having written
its message. -/
theorem C15_reverse_returns_normally :
    (¬ ∃ f : Fault, one_segment_multipath3D.reverse [] = .error f) ∧
    one_segment_multipath3D.reverse [] =
      .ok (one_segment_multipath3D, [ExtrusionMultiPath3D.reverse_message]) := by
  constructor
  · rintro ⟨f, hf⟩
    simp [ExtrusionMultiPath3D.reverse] at hf
  · rfl

/-- C15 as amended: `can_reverse()` is false for every `ExtrusionMultiPath3D`, and
`reverse()` on it returns normally, leaves the sub-paths as they are and writes
one message to standard output. -/
theorem C15_multipath3D_reverse_is_noop (m : ExtrusionMultiPath3D) (cout : List String) :
    (ExtrusionEntity.multipath3D m).can_reverse = false ∧
    m.can_reverse = false ∧
    m.reverse cout = .ok (m, cout ++ [ExtrusionMultiPath3D.reverse_message]) ∧
    (∀ out, m.reverse cout = .ok out → out.1.paths = m.paths) := by
  refine ⟨rfl, rfl, rfl, ?_⟩
  intro out h
  simp only [ExtrusionMultiPath3D.reverse, Except.ok.injEq] at h
  rw [← h]

/-- C16, the claim refuted: the non-planar path constructed from a plain Path
with two points has two points and no elevation. -/
theorem C16_of_path_has_no_elevations :
    (ExtrusionPath3D.of_path
      { ExtrusionPath.new .erPerimeter 1 (2 / 5) (1 / 5) with
        polyline := { points := [⟨0, 0⟩, ⟨10, 0⟩] } }).z_offsets.length = 0 ∧
    (ExtrusionPath3D.of_path
      { ExtrusionPath.new .erPerimeter 1 (2 / 5) (1 / 5) with
        polyline := { points := [⟨0, 0⟩, ⟨10, 0⟩] } }).polyline.points.length = 2 ∧
    (ExtrusionPath3D.of_path
      { ExtrusionPath.new .erPerimeter 1 (2 / 5) (1 / 5) with
        polyline := { points := [⟨0, 0⟩, ⟨10, 0⟩] } }).z_offsets.length ≠
    (ExtrusionPath3D.of_path
      { ExtrusionPath.new .erPerimeter 1 (2 / 5) (1 / 5) with
        polyline := { points := [⟨0, 0⟩, ⟨10, 0⟩] } }).polyline.points.length := by
  refine ⟨rfl, rfl, ?_⟩
  simp [ExtrusionPath3D.of_path]

/-- C16 as amended: the constructors from a role and from role and flow values
give a path with no points and no elevations; the constructor from another
non-planar path copies both sequences, so the copy has equally long sequences
when the original has; `push_back(point, z_offset)`, `reverse()` and
`simplify()` keep equally long sequences equally long; the constructor from a
plain Path copies the points and leaves the elevation sequence empty, so its
result has equally long sequences exactly when the plain Path has no points. -/
theorem C16_z_offsets_length (role : ExtrusionRole) (mm3_per_mm width height : ℚ)
    (rhs : ExtrusionPath) (path : ExtrusionPath3D) (p : Point) (z_offset : coord_t)
    (tolerance : ℚ) :
    ((ExtrusionPath3D.new_role role).z_offsets = [] ∧
      (ExtrusionPath3D.new_role role).polyline.points = [] ∧
      (ExtrusionPath3D.new_role role).z_offsets.length =
        (ExtrusionPath3D.new_role role).polyline.points.length) ∧
    ((ExtrusionPath3D.new role mm3_per_mm width height).z_offsets = [] ∧
      (ExtrusionPath3D.new role mm3_per_mm width height).polyline.points = [] ∧
      (ExtrusionPath3D.new role mm3_per_mm width height).z_offsets.length =
        (ExtrusionPath3D.new role mm3_per_mm width height).polyline.points.length) ∧
    ((ExtrusionPath3D.copy path).z_offsets = path.z_offsets ∧
      (ExtrusionPath3D.copy path).polyline.points = path.polyline.points) ∧
    ((ExtrusionPath3D.of_path rhs).z_offsets = [] ∧
      (ExtrusionPath3D.of_path rhs).polyline.points = rhs.polyline.points ∧
      ((ExtrusionPath3D.of_path rhs).z_offsets.length =
          (ExtrusionPath3D.of_path rhs).polyline.points.length ↔
        rhs.polyline.points = [])) ∧
    (path.z_offsets.length = path.polyline.points.length →
      (ExtrusionPath3D.copy path).z_offsets.length =
        (ExtrusionPath3D.copy path).polyline.points.length ∧
      (path.push_back p z_offset).z_offsets.length =
        (path.push_back p z_offset).polyline.points.length ∧
      path.reverse.z_offsets.length = path.reverse.polyline.points.length ∧
      (path.simplify tolerance).z_offsets.length =
        (path.simplify tolerance).polyline.points.length) := by
  refine ⟨⟨rfl, rfl, rfl⟩, ⟨rfl, rfl, rfl⟩, ⟨rfl, rfl⟩, ⟨rfl, rfl, ?_⟩, ?_⟩
  · simp only [ExtrusionPath3D.of_path, List.length_nil]
    constructor
    · intro h
      exact List.length_eq_zero.mp h.symm
    · intro h
      rw [h]
      rfl
  · intro h
    refine ⟨h, ?_, ?_, h⟩
    · simp [ExtrusionPath3D.push_back, h]
    · simp [ExtrusionPath3D.reverse, ExtrusionPath.reverse, Polyline.reverse, h]

/-- Witness of C16 as amended: the path with two points and two elevations,
pushed the point (10,10) at elevation 7. -/
theorem C16_z_offsets_length_witness :
    [(0 : coord_t), 5].length = [(⟨0, 0⟩ : Point), ⟨10, 0⟩].length ∧
    ((ExtrusionPath3D.mk
        { ExtrusionPath.new .erPerimeter 1 (2 / 5) (1 / 5) with
          polyline := { points := [⟨0, 0⟩, ⟨10, 0⟩] } } [0, 5]).push_back ⟨10, 10⟩ 7).z_offsets.length =
      ((ExtrusionPath3D.mk
        { ExtrusionPath.new .erPerimeter 1 (2 / 5) (1 / 5) with
          polyline := { points := [⟨0, 0⟩, ⟨10, 0⟩] } } [0, 5]).push_back ⟨10, 10⟩ 7).polyline.points.length :=
  ⟨rfl,
   ((C16_z_offsets_length .erPerimeter 1 (2 / 5) (1 / 5)
      (ExtrusionPath.new .erPerimeter 1 (2 / 5) (1 / 5))
      (ExtrusionPath3D.mk
        { ExtrusionPath.new .erPerimeter 1 (2 / 5) (1 / 5) with
          polyline := { points := [⟨0, 0⟩, ⟨10, 0⟩] } } [0, 5])
      ⟨10, 10⟩ 7 0).2.2.2.2 rfl).2.1⟩

/-! ## Further aggregate queries -/

/-- C17: on a composite with no sub-paths (of either instantiation) the
aggregate queries return zero or empty results and do not fail: `length()` is 0,
`total_volume()` is 0, `as_polyline()` returns the empty polyline, the two
footprint queries leave the accumulator as it is (and their one-argument forms
return no polygon), and `collect_polylines` leaves the accumulator as it is. -/
theorem C17_empty_composite_queries {THING : Type} [ExtrusionThing THING]
    (ext : Externals) (fp : FootprintExternals) (out : Polygons) (scaled_epsilon : ℚ)
    (dst : Polylines) :
    ({ paths := [] } : ExtrusionMultiEntity THING).length ext = 0 ∧
    ({ paths := [] } : ExtrusionMultiEntity THING).total_volume ext = 0 ∧
    ({ paths := [] } : ExtrusionMultiEntity THING).as_polyline = .ok { points := [] } ∧
    ({ paths := [] } : ExtrusionMultiEntity THING).polygons_covered_by_width
      fp out scaled_epsilon = out ∧
    ({ paths := [] } : ExtrusionMultiEntity THING).polygons_covered_by_spacing
      fp out scaled_epsilon = out ∧
    ({ paths := [] } : ExtrusionMultiEntity THING).polygons_covered_by_width_new
      fp scaled_epsilon = [] ∧
    ({ paths := [] } : ExtrusionMultiEntity THING).polygons_covered_by_spacing_new
      fp scaled_epsilon = [] ∧
    ({ paths := [] } : ExtrusionMultiEntity THING).collect_polylines dst = .ok dst := by
  refine ⟨rfl, rfl, rfl, rfl, rfl, rfl, rfl, ?_⟩
  simp [ExtrusionMultiEntity.collect_polylines, ExtrusionMultiEntity.as_polyline]

/-- C18: a Loop and a composite `ExtrusionMultiPath` built over the same
sequence of paths answer `role()` and `total_volume()` identically: the role is
that of the first sub-path, or `erNone` when there is none, and the total
volumes are equal (both the sum of the sub-paths' total volumes). -/
theorem C18_loop_matches_multipath (ext : Externals) (ps : ExtrusionPaths)
    (loop_role : ExtrusionLoopRole) :
    (ExtrusionLoop.mk ps loop_role).role =
      (ExtrusionMultiPath.mk (ExtrusionMultiEntity.mk ps)).toExtrusionMultiEntity.role ∧
    (ExtrusionEntity.loop (ExtrusionLoop.mk ps loop_role)).role =
      (ExtrusionEntity.multipath (ExtrusionMultiPath.mk (ExtrusionMultiEntity.mk ps))).role ∧
    (ExtrusionLoop.mk ps loop_role).role =
      (match ps.head? with
       | none => ExtrusionRole.erNone
       | some front => front.role) ∧
    (ExtrusionLoop.mk ps loop_role).total_volume ext =
      (ExtrusionMultiPath.mk
        (ExtrusionMultiEntity.mk ps)).toExtrusionMultiEntity.total_volume ext ∧
    (ExtrusionLoop.mk ps loop_role).total_volume ext =
      (ps.map (fun path => path.total_volume ext)).sum := by
  refine ⟨?_, ?_, ?_, rfl, ?_⟩
  · cases ps <;> rfl
  · cases ps <;> rfl
  · cases ps <;> rfl
  · unfold ExtrusionLoop.total_volume
    rw [foldl_add_eq_sum]
    simp

/-- C20, the code at the failing input: on the composite `[(0,0),(10,0)]`,
`[(10,0),(10,10),(0,10)]` the first point of the first sub-path is (0,0) and
the last point of the last sub-path is (0,10); `last_point()` returns (0,10),
and `first_point()` returns (0,10) too, the last point of the last sub-path,
not (0,0). -/
theorem C20_first_point_is_last_point :
    two_segment_multipath.paths.head?.map (fun p => p.polyline.points.head?) =
      some (some ⟨0, 0⟩) ∧
    two_segment_multipath.paths.getLast?.map (fun p => p.polyline.points.getLast?) =
      some (some ⟨0, 10⟩) ∧
    two_segment_multipath.toExtrusionMultiEntity.last_point = .ok ⟨0, 10⟩ ∧
    two_segment_multipath.toExtrusionMultiEntity.first_point = .ok ⟨0, 10⟩ ∧
    two_segment_multipath.toExtrusionMultiEntity.first_point ≠ .ok ⟨0, 0⟩ := by
  refine ⟨rfl, rfl, rfl, rfl, ?_⟩
  intro h
  have h2 : two_segment_multipath.toExtrusionMultiEntity.first_point = .ok ⟨0, 10⟩ := rfl
  rw [h2] at h
  simp at h

/-! ## Direction normalization -/

theorem segments_area2_append_singleton :
    ∀ (l : Points) (a : Point),
      segments_area2 (l ++ [a]) =
        segments_area2 l +
          (match l.getLast? with
           | some b => b.cross a
           | none => 0)
  | [], a => by simp [segments_area2]
  | [x], a => by simp [segments_area2]
  | x :: y :: rest, a => by
    have ih := segments_area2_append_singleton (y :: rest) a
    have hstep : segments_area2 (x :: y :: rest ++ [a]) =
        x.cross y + segments_area2 (y :: rest ++ [a]) := rfl
    rw [hstep, ih, List.getLast?_cons_cons]
    simp only [segments_area2]
    ring

theorem segments_area2_reverse : ∀ l : Points, segments_area2 l.reverse = - segments_area2 l
  | [] => rfl
  | [x] => rfl
  | x :: y :: rest => by
    have ih := segments_area2_reverse (y :: rest)
    have hl : ((y :: rest).reverse).getLast? = some y := by
      rw [List.getLast?_reverse]; rfl
    rw [List.reverse_cons, segments_area2_append_singleton, ih, hl]
    simp only [segments_area2, Point.cross]
    ring

theorem signed_area2_reverse (l : ExtrusionLoop) :
    l.reverse.signed_area2 = - l.signed_area2 := by
  obtain ⟨paths, loop_role⟩ := l
  simp only [ExtrusionLoop.reverse, ExtrusionLoop.signed_area2]
  induction paths with
  | nil => simp
  | cons path rest ih =>
    simp only [List.map_cons, List.reverse_cons, List.map_append, List.sum_append,
      List.sum_cons, List.sum_nil, ih]
    simp only [ExtrusionPath.reverse, Polyline.reverse, segments_area2_reverse, List.map_nil,
      List.sum_nil]
    ring

/-- C19: direction normalization of a Loop is idempotent: for every Loop,
`make_clockwise()` applied twice leaves the same loop, sub-path sequence
included, as applied once, and likewise `make_counter_clockwise()`. -/
theorem C19_direction_normalization_idempotent (l : ExtrusionLoop) :
    l.make_clockwise.make_clockwise = l.make_clockwise ∧
    l.make_clockwise.make_clockwise.paths = l.make_clockwise.paths ∧
    l.make_counter_clockwise.make_counter_clockwise = l.make_counter_clockwise ∧
    l.make_counter_clockwise.make_counter_clockwise.paths = l.make_counter_clockwise.paths := by
  have hcw : l.make_clockwise.make_clockwise = l.make_clockwise := by
    by_cases h : 0 < l.signed_area2
    · have h1 : l.make_clockwise = l.reverse := by simp [ExtrusionLoop.make_clockwise, h]
      have h2 : ¬ 0 < l.reverse.signed_area2 := by rw [signed_area2_reverse]; omega
      rw [h1]
      simp [ExtrusionLoop.make_clockwise, h2]
    · have h1 : l.make_clockwise = l := by simp [ExtrusionLoop.make_clockwise, h]
      rw [h1, h1]
  have hccw : l.make_counter_clockwise.make_counter_clockwise = l.make_counter_clockwise := by
    by_cases h : l.signed_area2 < 0
    · have h1 : l.make_counter_clockwise = l.reverse := by
        simp [ExtrusionLoop.make_counter_clockwise, h]
      have h2 : ¬ l.reverse.signed_area2 < 0 := by rw [signed_area2_reverse]; omega
      rw [h1]
      simp [ExtrusionLoop.make_counter_clockwise, h2]
    · have h1 : l.make_counter_clockwise = l := by
        simp [ExtrusionLoop.make_counter_clockwise, h]
      rw [h1, h1]
  exact ⟨hcw, by rw [hcw], hccw, by rw [hccw]⟩

/-! ## Visitor dispatch -/

theorem option_eq_none_of_isSome_false {α : Type} (o : Option α) (h : o.isSome = false) :
    o = none := by
  cases o with
  | none => rfl
  | some a => exact Bool.noConfusion h

/-- C12: for each of the five kinds K and every visitor that overrides none of
the mutable-reference overloads, visiting an entity of kind K through the const
`visit` is one run of the visitor's const-reference overload for K, and
visiting it through the non-const `visit` is the same one run, the entity left
as it was. On the recording visitor that overrides the const-reference
overloads only, either visit adds to the log the const-reference overload of K,
once, and no other overload. -/
theorem C12_visit_runs_own_const_overload {σ : Type} (v : ExtrusionVisitor σ) (s : σ)
    (hmut : ∀ k : EntityKind, v.overrides (.mut k) = false) :
    (∀ (entity : ExtrusionPath) (body : ExtrusionPath → σ → Except Fault σ),
      v.override_const_path = some body →
      (ExtrusionEntity.path entity).visit_const v s = body entity s ∧
      (ExtrusionEntity.path entity).visit v s =
        (match body entity s with
         | .error f => .error f
         | .ok s2 => .ok (ExtrusionEntity.path entity, s2))) ∧
    (∀ (entity : ExtrusionPath3D) (body : ExtrusionPath3D → σ → Except Fault σ),
      v.override_const_path3D = some body →
      (ExtrusionEntity.path3D entity).visit_const v s = body entity s ∧
      (ExtrusionEntity.path3D entity).visit v s =
        (match body entity s with
         | .error f => .error f
         | .ok s2 => .ok (ExtrusionEntity.path3D entity, s2))) ∧
    (∀ (entity : ExtrusionMultiPath) (body : ExtrusionMultiPath → σ → Except Fault σ),
      v.override_const_multipath = some body →
      (ExtrusionEntity.multipath entity).visit_const v s = body entity s ∧
      (ExtrusionEntity.multipath entity).visit v s =
        (match body entity s with
         | .error f => .error f
         | .ok s2 => .ok (ExtrusionEntity.multipath entity, s2))) ∧
    (∀ (entity : ExtrusionMultiPath3D) (body : ExtrusionMultiPath3D → σ → Except Fault σ),
      v.override_const_multipath3D = some body →
      (ExtrusionEntity.multipath3D entity).visit_const v s = body entity s ∧
      (ExtrusionEntity.multipath3D entity).visit v s =
        (match body entity s with
         | .error f => .error f
         | .ok s2 => .ok (ExtrusionEntity.multipath3D entity, s2))) ∧
    (∀ (entity : ExtrusionLoop) (body : ExtrusionLoop → σ → Except Fault σ),
      v.override_const_loop = some body →
      (ExtrusionEntity.loop entity).visit_const v s = body entity s ∧
      (ExtrusionEntity.loop entity).visit v s =
        (match body entity s with
         | .error f => .error f
         | .ok s2 => .ok (ExtrusionEntity.loop entity, s2))) ∧
    (∀ (e : ExtrusionEntity) (log : List Overload),
      e.visit (recording_visitor only_const_overloads) log =
        .ok (e, log ++ [.const e.kind]) ∧
      e.visit_const (recording_visitor only_const_overloads) log =
        .ok (log ++ [.const e.kind])) := by
  refine ⟨?_, ?_, ?_, ?_, ?_, ?_⟩
  · intro entity body hbody
    have hm : v.override_path = none := by
      exact option_eq_none_of_isSome_false _ (hmut .path)
    constructor
    · simp [ExtrusionEntity.visit_const, ExtrusionVisitor.use_const_path, hbody]
    · simp only [ExtrusionEntity.visit, ExtrusionVisitor.use_path, hm,
        ExtrusionVisitor.use_const_path, hbody]
      cases body entity s <;> rfl
  · intro entity body hbody
    have hm : v.override_path3D = none := by
      exact option_eq_none_of_isSome_false _ (hmut .path3D)
    constructor
    · simp [ExtrusionEntity.visit_const, ExtrusionVisitor.use_const_path3D, hbody]
    · simp only [ExtrusionEntity.visit, ExtrusionVisitor.use_path3D, hm,
        ExtrusionVisitor.use_const_path3D, hbody]
      cases body entity s <;> rfl
  · intro entity body hbody
    have hm : v.override_multipath = none := by
      exact option_eq_none_of_isSome_false _ (hmut .multipath)
    constructor
    · simp [ExtrusionEntity.visit_const, ExtrusionVisitor.use_const_multipath, hbody]
    · simp only [ExtrusionEntity.visit, ExtrusionVisitor.use_multipath, hm,
        ExtrusionVisitor.use_const_multipath, hbody]
      cases body entity s <;> rfl
  · intro entity body hbody
    have hm : v.override_multipath3D = none := by
      exact option_eq_none_of_isSome_false _ (hmut .multipath3D)
    constructor
    · simp [ExtrusionEntity.visit_const, ExtrusionVisitor.use_const_multipath3D, hbody]
    · simp only [ExtrusionEntity.visit, ExtrusionVisitor.use_multipath3D, hm,
        ExtrusionVisitor.use_const_multipath3D, hbody]
      cases body entity s <;> rfl
  · intro entity body hbody
    have hm : v.override_loop = none := by
      exact option_eq_none_of_isSome_false _ (hmut .loop)
    constructor
    · simp [ExtrusionEntity.visit_const, ExtrusionVisitor.use_const_loop, hbody]
    · simp only [ExtrusionEntity.visit, ExtrusionVisitor.use_loop, hm,
        ExtrusionVisitor.use_const_loop, hbody]
      cases body entity s <;> rfl
  · intro e log
    cases e <;> exact ⟨rfl, rfl⟩

/-- Witness of C12: the recording visitor that overrides the const-reference
overloads only, started on the empty log. -/
theorem C12_visit_runs_own_const_overload_witness :
    (∀ k : EntityKind,
      (recording_visitor only_const_overloads).overrides (.mut k) = false) ∧
    (ExtrusionEntity.multipath3D one_segment_multipath3D).visit
        (recording_visitor only_const_overloads) [] =
      .ok (ExtrusionEntity.multipath3D one_segment_multipath3D, [.const .multipath3D]) ∧
    (ExtrusionEntity.multipath3D one_segment_multipath3D).visit_const
        (recording_visitor only_const_overloads) [] =
      .ok [.const .multipath3D] :=
  ⟨by intro k; cases k <;> rfl,
   ((C12_visit_runs_own_const_overload (recording_visitor only_const_overloads) []
      (by intro k; cases k <;> rfl)).2.2.2.1
      one_segment_multipath3D
      (fun _ log => Except.ok (log ++ [Overload.const EntityKind.multipath3D])) (by rfl)).2,
   ((C12_visit_runs_own_const_overload (recording_visitor only_const_overloads) []
      (by intro k; cases k <;> rfl)).2.2.2.1
      one_segment_multipath3D
      (fun _ log => Except.ok (log ++ [Overload.const EntityKind.multipath3D])) (by rfl)).1⟩

/-- C13: for every kind K and every visitor that overrides neither the
const-reference overload for K nor the mutable-reference one, visiting an
entity of kind K, through either `visit`, ends in the failure of the assertion
of the default const-reference overload; it does not return normally. -/
theorem C13_unhandled_kind_fails {σ : Type} (v : ExtrusionVisitor σ) (e : ExtrusionEntity)
    (s : σ)
    (hmut : v.overrides (.mut e.kind) = false)
    (hconst : v.overrides (.const e.kind) = false) :
    e.visit v s = .error .assertion_failed ∧
    e.visit_const v s = .error .assertion_failed ∧
    (¬ ∃ out, e.visit v s = .ok out) ∧
    (¬ ∃ out, e.visit_const v s = .ok out) := by
  have h : e.visit v s = .error .assertion_failed ∧
      e.visit_const v s = .error .assertion_failed := by
    cases e <;>
      simp only [ExtrusionEntity.kind, ExtrusionVisitor.overrides] at hmut hconst <;>
      simp [ExtrusionEntity.visit, ExtrusionEntity.visit_const,
        option_eq_none_of_isSome_false _ hmut, option_eq_none_of_isSome_false _ hconst,
        ExtrusionVisitor.use_path, ExtrusionVisitor.use_const_path,
        ExtrusionVisitor.use_path3D, ExtrusionVisitor.use_const_path3D,
        ExtrusionVisitor.use_multipath, ExtrusionVisitor.use_const_multipath,
        ExtrusionVisitor.use_multipath3D, ExtrusionVisitor.use_const_multipath3D,
        ExtrusionVisitor.use_loop, ExtrusionVisitor.use_const_loop]
  refine ⟨h.1, h.2, ?_, ?_⟩
  · rintro ⟨out, hout⟩
    rw [h.1] at hout
    exact Except.noConfusion hout
  · rintro ⟨out, hout⟩
    rw [h.2] at hout
    exact Except.noConfusion hout

/-- Witness of C13: the recording visitor that overrides nothing, visiting a
Loop. -/
theorem C13_unhandled_kind_fails_witness :
    (recording_visitor (fun _ => false)).overrides
      (.mut (ExtrusionEntity.loop square_loop).kind) = false ∧
    (recording_visitor (fun _ => false)).overrides
      (.const (ExtrusionEntity.loop square_loop).kind) = false ∧
    (ExtrusionEntity.loop square_loop).visit (recording_visitor (fun _ => false)) [] =
      .error .assertion_failed ∧
    (ExtrusionEntity.loop square_loop).visit_const (recording_visitor (fun _ => false)) [] =
      .error .assertion_failed :=
  ⟨rfl, rfl,
   (C13_unhandled_kind_fails (recording_visitor (fun _ => false))
      (ExtrusionEntity.loop square_loop) [] rfl rfl).1,
   (C13_unhandled_kind_fails (recording_visitor (fun _ => false))
      (ExtrusionEntity.loop square_loop) [] rfl rfl).2.1⟩

/-- C14, the claim refuted: the recording visitor that overrides only
`use(const ExtrusionPath3D &)`, visiting the composite of one non-planar path,
ends in the assertion failure through either `visit`; no visit returns a log
with the non-planar-Path overload in it. -/
theorem C14_composite_visit_fails :
    (ExtrusionEntity.multipath3D one_segment_multipath3D).visit
      (recording_visitor only_const_path3D) [] = .error .assertion_failed ∧
    (ExtrusionEntity.multipath3D one_segment_multipath3D).visit_const
      (recording_visitor only_const_path3D) [] = .error .assertion_failed ∧
    (¬ ∃ out, (ExtrusionEntity.multipath3D one_segment_multipath3D).visit
      (recording_visitor only_const_path3D) [] = .ok out ∧
      Overload.const .path3D ∈ out.2) := by
  refine ⟨rfl, rfl, ?_⟩
  rintro ⟨out, hout, _⟩
  have h : (ExtrusionEntity.multipath3D one_segment_multipath3D).visit
      (recording_visitor only_const_path3D) [] = .error .assertion_failed := rfl
  rw [h] at hout
  exact Except.noConfusion hout

/-- C14 as amended: visiting a non-planar composite with a visitor that does not
override the two composite overloads never runs the visitor's overload for a
non-planar Path, whatever that overload is: `visit` calls the overload for the
composite, whose default forwards to the const-reference overload for the
composite, whose default is the failing assertion. -/
theorem C14_composite_visit_stops_at_composite {σ : Type} (v : ExtrusionVisitor σ)
    (m : ExtrusionMultiPath3D) (s : σ)
    (hmut : v.override_multipath3D = none)
    (hconst : v.override_const_multipath3D = none) :
    v.use_multipath3D m s =
      (match v.use_const_multipath3D m s with
       | .error f => .error f
       | .ok s2 => .ok (m, s2)) ∧
    v.use_const_multipath3D m s = .error .assertion_failed ∧
    (ExtrusionEntity.multipath3D m).visit v s = .error .assertion_failed ∧
    (ExtrusionEntity.multipath3D m).visit_const v s = .error .assertion_failed ∧
    (∀ body : ExtrusionPath3D → σ → Except Fault σ,
      (ExtrusionEntity.multipath3D m).visit
        { v with override_const_path3D := some body } s = .error .assertion_failed ∧
      (ExtrusionEntity.multipath3D m).visit_const
        { v with override_const_path3D := some body } s = .error .assertion_failed) := by
  refine ⟨?_, ?_, ?_, ?_, ?_⟩
  · simp [ExtrusionVisitor.use_multipath3D, hmut]
  · simp [ExtrusionVisitor.use_const_multipath3D, hconst]
  · simp [ExtrusionEntity.visit, ExtrusionVisitor.use_multipath3D,
      ExtrusionVisitor.use_const_multipath3D, hmut, hconst]
  · simp [ExtrusionEntity.visit_const, ExtrusionVisitor.use_const_multipath3D, hconst]
  · intro body
    constructor
    · simp [ExtrusionEntity.visit, ExtrusionVisitor.use_multipath3D,
        ExtrusionVisitor.use_const_multipath3D, hmut, hconst]
    · simp [ExtrusionEntity.visit_const, ExtrusionVisitor.use_const_multipath3D, hconst]

/-- Witness of C14 as amended: the recording visitor that overrides only
`use(const ExtrusionPath3D &)`. -/
theorem C14_composite_visit_stops_at_composite_witness :
    (recording_visitor only_const_path3D).override_multipath3D = none ∧
    (recording_visitor only_const_path3D).override_const_multipath3D = none ∧
    (ExtrusionEntity.multipath3D one_segment_multipath3D).visit
      (recording_visitor only_const_path3D) [] = .error .assertion_failed :=
  ⟨rfl, rfl,
   (C14_composite_visit_stops_at_composite (recording_visitor only_const_path3D)
      one_segment_multipath3D [] rfl rfl).2.2.1⟩

/-- The counter-clockwise square is reversed by `make_clockwise()` and left as
it is by `make_counter_clockwise()`. -/
theorem square_loop_normalization :
    square_loop.make_clockwise = square_loop.reverse ∧
    square_loop.make_clockwise ≠ square_loop ∧
    square_loop.make_counter_clockwise = square_loop := by
  have hpos : 0 < square_loop.signed_area2 := by decide
  have hneg : ¬ square_loop.signed_area2 < 0 := by decide
  have hcw : square_loop.make_clockwise = square_loop.reverse := by
    simp [ExtrusionLoop.make_clockwise, hpos]
  refine ⟨hcw, ?_, by simp [ExtrusionLoop.make_counter_clockwise, hneg]⟩
  rw [hcw]
  intro heq
  have hpts := congrArg (fun l : ExtrusionLoop => l.paths.map (fun p => p.polyline.points)) heq
  revert hpts
  decide

/-! ## Reversal of a non-planar path -/

/-- C21, the code at the failing input: on the non-planar path with the points
(0,0), (10,0) at the elevations 0, 5 (equally long sequences), `reverse()`
reverses the points and leaves `z_offsets` as it is, as it does on every
non-planar path. After the call index 0 holds the point (10,0) with the
elevation 0, while before the call index 1 held the point (10,0) with the
elevation 5: the point has lost its elevation. -/
theorem C21_reverse_leaves_z_offsets :
    rising_path3D.z_offsets.length = rising_path3D.polyline.points.length ∧
    rising_path3D.reverse.polyline.points = [⟨10, 0⟩, ⟨0, 0⟩] ∧
    rising_path3D.reverse.z_offsets = [0, 5] ∧
    (rising_path3D.reverse.polyline.points[0]?, rising_path3D.reverse.z_offsets[0]?) =
      (some ⟨10, 0⟩, some 0) ∧
    (rising_path3D.polyline.points[2 - 1 - 0]?, rising_path3D.z_offsets[2 - 1 - 0]?) =
      (some ⟨10, 0⟩, some 5) ∧
    (rising_path3D.reverse.polyline.points[0]?, rising_path3D.reverse.z_offsets[0]?) ≠
      (rising_path3D.polyline.points[2 - 1 - 0]?, rising_path3D.z_offsets[2 - 1 - 0]?) ∧
    (∀ path : ExtrusionPath3D,
      path.reverse.z_offsets = path.z_offsets ∧
      path.reverse.polyline.points = path.polyline.points.reverse) := by
  refine ⟨rfl, rfl, rfl, rfl, rfl, by decide, ?_⟩
  intro path
  exact ⟨rfl, rfl⟩

/-! ## Role predicates -/

/-- C24: the role predicates are consistent for every role: `is_solid_infill`
implies `is_infill`, `is_perimeter` and `is_infill` never both hold, and
`is_bridge` implies `is_perimeter` or `is_infill`. -/
theorem C24_role_predicates_consistent (role : ExtrusionRole) :
    (is_solid_infill role = true → is_infill role = true) ∧
    ¬ (is_perimeter role = true ∧ is_infill role = true) ∧
    (is_bridge role = true → is_perimeter role = true ∨ is_infill role = true) := by
  cases role <;> decide

/-- Witness of C24: the bridge infill role is a solid infill and a bridge, and
it is an infill and not a perimeter. -/
theorem C24_role_predicates_consistent_witness :
    is_solid_infill .erBridgeInfill = true ∧
    is_bridge .erBridgeInfill = true ∧
    is_infill .erBridgeInfill = true ∧
    is_perimeter .erBridgeInfill = false :=
  ⟨rfl, rfl, (C24_role_predicates_consistent .erBridgeInfill).1 rfl, rfl⟩

/-! ## Reversal of a composite, continued -/

theorem extrusion_path_reverse_reverse (p : ExtrusionPath) : p.reverse.reverse = p := by
  cases p with
  | mk polyline mm3_per_mm width height feedrate extruder_id cp_color_id m_role =>
    simp [ExtrusionPath.reverse, Polyline.reverse]

/-- C23: reversal of a composite of plain paths is an involution. For every
composite, also the empty one and with no condition on adjacency, two calls of
`reverse()` give back the composite: the same sub-paths at the same indices,
each with its original points in their original order and its original
metadata. -/
theorem C23_multipath_reverse_involution (m : ExtrusionMultiPath) :
    m.reverse.reverse = m ∧
    m.reverse.reverse.paths = m.paths ∧
    m.reverse.reverse.paths.length = m.paths.length ∧
    (∀ (i : Nat) (p : ExtrusionPath), m.paths[i]? = some p →
      m.reverse.reverse.paths[i]? = some p) ∧
    (ExtrusionMultiPath.mk (ExtrusionMultiEntity.mk [])).reverse.reverse =
      ExtrusionMultiPath.mk (ExtrusionMultiEntity.mk []) := by
  have hpaths : m.reverse.reverse.paths = m.paths := by
    show ((((m.paths.map ExtrusionPath.reverse).reverse).map ExtrusionPath.reverse).reverse) =
      m.paths
    rw [List.map_reverse, List.reverse_reverse, List.map_map]
    have hid : (ExtrusionPath.reverse ∘ ExtrusionPath.reverse) = id := by
      funext p
      exact extrusion_path_reverse_reverse p
    rw [hid, List.map_id]
  have hm : m.reverse.reverse = m := by
    obtain ⟨⟨paths⟩⟩ := m
    have h2 : (ExtrusionMultiPath.mk (ExtrusionMultiEntity.mk paths)).reverse.reverse.paths =
        paths := hpaths
    show ExtrusionMultiPath.mk (ExtrusionMultiEntity.mk
      (ExtrusionMultiPath.mk (ExtrusionMultiEntity.mk paths)).reverse.reverse.paths) = _
    rw [h2]
  refine ⟨hm, hpaths, by rw [hpaths], ?_, rfl⟩
  intro i p hi
  rw [hpaths]
  exact hi

/-! ## The copying and the consuming overloads -/

theorem extrusion_paths_append_move_loop_eq (role : ExtrusionRole)
    (mm3_per_mm width height : ℚ) (polylines : Polylines) :
    ∀ dst : ExtrusionPaths,
      extrusion_paths_append_move_loop role mm3_per_mm width height dst polylines =
        extrusion_paths_append_loop role mm3_per_mm width height dst polylines := by
  induction polylines with
  | nil => intro dst; rfl
  | cons polyline rest ih =>
    intro dst
    unfold extrusion_paths_append_move_loop extrusion_paths_append_loop
    by_cases hv : polyline.is_valid = true
    · simp only [hv, if_true]
      exact ih _
    · simp only [hv, Bool.false_eq_true, if_false]
      exact ih _

theorem extrusion_entities_append_paths_move_loop_eq (role : ExtrusionRole)
    (mm3_per_mm width height : ℚ) (polylines : Polylines) :
    ∀ dst : ExtrusionEntitiesPtr,
      extrusion_entities_append_paths_move_loop role mm3_per_mm width height dst polylines =
        extrusion_entities_append_paths_loop role mm3_per_mm width height dst polylines := by
  induction polylines with
  | nil => intro dst; rfl
  | cons polyline rest ih =>
    intro dst
    unfold extrusion_entities_append_paths_move_loop extrusion_entities_append_paths_loop
    by_cases hv : polyline.is_valid = true
    · simp only [hv, if_true]
      cases polyline.points.getLast? with
      | none => rfl
      | some back =>
        cases polyline.points.head? with
        | none => rfl
        | some front =>
          by_cases hc : back = front
          · simp only [hc, if_true]
            exact ih _
          · simp only [hc, if_false]
            exact ih _
    · simp only [hv, Bool.false_eq_true, if_false]
      exact ih _

theorem extrusion_entities_append_loops_move_loop_eq (role : ExtrusionRole)
    (mm3_per_mm width height : ℚ) (loops : Polygons) :
    ∀ dst : ExtrusionEntitiesPtr,
      extrusion_entities_append_loops_move_loop role mm3_per_mm width height dst loops =
        extrusion_entities_append_loops_loop role mm3_per_mm width height dst loops := by
  induction loops with
  | nil => intro dst; rfl
  | cons poly rest ih =>
    intro dst
    unfold extrusion_entities_append_loops_move_loop extrusion_entities_append_loops_loop
    by_cases hv : poly.is_valid = true
    · simp only [hv, if_true]
      cases poly.points.head? with
      | none => rfl
      | some front => exact ih _
    · simp only [hv, Bool.false_eq_true, if_false]
      exact ih _

/-- C25: the copying and the consuming overload of each helper build the same
result. For every destination and every batch, `extrusion_entities_append_paths`,
`extrusion_entities_append_loops` and `extrusion_paths_append` return normally
from both overloads with the same destination sequence; the overload taking
the batch by reference leaves the batch as it was, the overload taking it as a
temporary leaves it empty. -/
theorem C25_copying_and_consuming_agree (polylines : Polylines) (loops : Polygons)
    (role : ExtrusionRole) (mm3_per_mm width height : ℚ) :
    (∀ dst : ExtrusionEntitiesPtr, ∃ out : ExtrusionEntitiesPtr,
      extrusion_entities_append_paths dst polylines role mm3_per_mm width height =
        .ok (out, polylines) ∧
      extrusion_entities_append_paths_move dst polylines role mm3_per_mm width height =
        .ok (out, [])) ∧
    (∀ dst : ExtrusionEntitiesPtr, ∃ out : ExtrusionEntitiesPtr,
      extrusion_entities_append_loops dst loops role mm3_per_mm width height =
        .ok (out, loops) ∧
      extrusion_entities_append_loops_move dst loops role mm3_per_mm width height =
        .ok (out, [])) ∧
    (∀ dst : ExtrusionPaths, ∃ out : ExtrusionPaths,
      extrusion_paths_append dst polylines role mm3_per_mm width height = (out, polylines) ∧
      extrusion_paths_append_move dst polylines role mm3_per_mm width height = (out, [])) := by
  refine ⟨?_, ?_, ?_⟩
  · intro dst
    refine ⟨_, extrusion_entities_append_paths_eq dst polylines role mm3_per_mm width height, ?_⟩
    simp [extrusion_entities_append_paths_move, extrusion_entities_append_paths_move_loop_eq,
      extrusion_entities_append_paths_loop_eq]
  · intro dst
    refine ⟨_, extrusion_entities_append_loops_eq dst loops role mm3_per_mm width height, ?_⟩
    simp [extrusion_entities_append_loops_move, extrusion_entities_append_loops_move_loop_eq,
      extrusion_entities_append_loops_loop_eq]
  · intro dst
    refine ⟨_, rfl, ?_⟩
    simp [extrusion_paths_append_move, extrusion_paths_append_move_loop_eq]

/-! ## Flattening and reversal -/

theorem join_tails_append_singleton (seqs : List Points) (x : Points) (h : seqs ≠ []) :
    join_tails (seqs ++ [x]) = join_tails seqs ++ x.tail := by
  cases seqs with
  | nil => exact absurd rfl h
  | cons first later => simp [join_tails]

theorem join_tails_reverse :
    ∀ seqs : List Points,
      join_tails ((seqs.map List.reverse).reverse) = (concat_shared_endpoints seqs).reverse
  | [] => rfl
  | [a] => by simp [join_tails, concat_shared_endpoints]
  | a :: b :: rest => by
    have ih := join_tails_reverse (b :: rest)
    have hne : ((b :: rest).map List.reverse).reverse ≠ [] := by simp
    rw [List.map_cons, List.reverse_cons, join_tails_append_singleton _ _ hne, ih,
      List.tail_reverse]
    simp [concat_shared_endpoints]

theorem join_tails_eq_concat_shared_endpoints (seqs : List Points)
    (hne : ∀ s ∈ seqs, s ≠ []) (hadj : endpoints_adjacent seqs) :
    concat_shared_endpoints seqs = join_tails seqs := by
  cases seqs with
  | nil => rfl
  | cons front rest => exact ExtrusionMultiEntity.concat_shared_endpoints_eq front rest hne hadj

/-- The flattening that `as_polyline()` is written to build commutes with
reversal: for non-empty sequences that share their endpoints, flattening the
reversed sequences in reversed order gives the reversed flattening. -/
theorem join_tails_commutes_with_reverse (seqs : List Points)
    (hne : ∀ s ∈ seqs, s ≠ []) (hadj : endpoints_adjacent seqs) :
    join_tails ((seqs.map List.reverse).reverse) = (join_tails seqs).reverse := by
  rw [join_tails_reverse, join_tails_eq_concat_shared_endpoints seqs hne hadj]

/-- C22, the code at the failing input: the composite `[(0,0),(10,0)]`,
`[(10,0),(10,10),(0,10)]` has non-empty sub-paths that share the endpoint (10,0),
and the flattening of its reversed sub-paths is the reversed flattening of its
sub-paths, as the claim says. The code returns neither: `as_polyline()` runs
into the undefined insertion before `reverse()` and after it, so no two
polylines exist to be compared. -/
theorem C22_as_polyline_undefined_around_reverse :
    (∀ p ∈ two_segment_multipath.paths, p.polyline.points ≠ []) ∧
    endpoints_adjacent (two_segment_multipath.paths.map (fun p => p.polyline.points)) ∧
    join_tails (two_segment_multipath.reverse.paths.map (fun p => p.polyline.points)) =
      (join_tails (two_segment_multipath.paths.map (fun p => p.polyline.points))).reverse ∧
    two_segment_multipath.toExtrusionMultiEntity.as_polyline = .error .undefined_behaviour ∧
    two_segment_multipath.reverse.toExtrusionMultiEntity.as_polyline =
      .error .undefined_behaviour ∧
    (¬ ∃ before after : Polyline,
      two_segment_multipath.toExtrusionMultiEntity.as_polyline = .ok before ∧
      two_segment_multipath.reverse.toExtrusionMultiEntity.as_polyline = .ok after ∧
      after.points = before.points.reverse) := by
  refine ⟨by decide, by decide, by decide, rfl, rfl, ?_⟩
  rintro ⟨before, after, hbefore, _, _⟩
  exact ExtrusionMultiEntity.as_polyline_not_ok _ (by decide) ⟨before, hbefore⟩

end Slic3r
